import Mathlib

/-!
# Verification of appGestionAcademica business logic

Shallow embedding of the academic-management program's core logic:

* `models/matricula_model.py` — status resolver (`determinar_estado`),
  weighted grade calculator (`calcular_nota_ponderada`), and the two
  recompute sweeps (`actualizar_estados_por_curso`,
  `actualizar_estados_matriculas`);
* `utilities/sanitizer.py` — `limpiar_cedula`, `limpiar_nota`,
  `validar_cedula_ecuador`;
* `controllers/import_processor.py` — `Validator.procesar` and
  `Validator._procesar_notas_fila`;
* `services/persistence.py` — `PersistenceService.guardar_lote`;
* `utilities/importer_window.py` — deduplication, interactive review
  resolution and final report assembly.

Python floats are modelled as exact rationals (`ℚ`), dates as day
ordinals (`ℤ`), `None`-able values as `Option`, and a raised exception
as the `.error` branch of `Except`.  Strings restricted to the data the
program treats (identifiers, cell contents) are modelled over ASCII
character lists; `str.isdigit` is modelled on the decimal digits
`'0'..'9'`.
-/

namespace Gestion

/-! ## Exact rational arithmetic

Python float arithmetic on the program's small decimal values is
modelled exactly.  The Batteries `Rat.add`/`Rat.mul`/... are
`@[irreducible]`, which blocks kernel evaluation, so the four
operations the program uses are spelled out through `mkRat` /
`Rat.divInt`; values of type `ℚ` are always normalized, hence `=`, `≤`
and `<` on them are value comparisons. -/

/-- Addition of exact rationals. -/
def qadd (a b : ℚ) : ℚ := mkRat (a.num * b.den + b.num * a.den) (a.den * b.den)

/-- Subtraction of exact rationals. -/
def qsub (a b : ℚ) : ℚ := mkRat (a.num * b.den - b.num * a.den) (a.den * b.den)

/-- Multiplication of exact rationals. -/
def qmul (a b : ℚ) : ℚ := mkRat (a.num * b.num) (a.den * b.den)

/-- Division of exact rationals (division by zero yields zero; the
program never divides by zero). -/
def qdiv (a b : ℚ) : ℚ := Rat.divInt (a.num * b.den) (a.den * b.num)

/-- The integer `n` as an exact rational. -/
def qofInt (n : ℤ) : ℚ := mkRat n 1

/-- Academic status strings used by the program. -/
inductive Estado where
  | APROBADO
  | REPROBADO
  | EN_CURSO
  | NO_REALIZO
deriving DecidableEq, Repr, Inhabited

/-- The part of a `Curso` row that `determinar_estado` reads:
`nota_aprobacion` (pass threshold) and `fecha_final` (end date as a day
ordinal; `none` models SQL `NULL`). -/
structure Curso where
  notaAprobacion : ℚ
  fechaFinal : Option ℤ
deriving DecidableEq, Repr

/-- Core of `MatriculaModel.determinar_estado` for a numeric
(non-`None`) final grade, transcribed from
`src/models/matricula_model.py` lines 134-193.  `hoy` makes the hidden
input `date.today()` explicit. -/
def determinarEstadoNum (notaFinal : ℚ) (cursoObj : Curso)
    (esAbandono : Bool) (hoy : ℤ) : Estado :=
  -- REGLA 1: Abandono Manual
  if esAbandono then .NO_REALIZO
  -- REGLA 2: Aprobado (nota_final >= curso_obj.nota_aprobacion)
  else if cursoObj.notaAprobacion ≤ notaFinal then .APROBADO
  else
    match cursoObj.fechaFinal with
    -- Si no tiene fecha fin, siempre está abierto
    | none => .EN_CURSO
    | some fechaFin =>
      -- curso_esta_cerrado = (fecha_fin < hoy)
      if fechaFin < hoy then
        -- (`nota_final is None` is False here: the grade is numeric)
        if notaFinal = 0 then .NO_REALIZO else .REPROBADO
      else .EN_CURSO

/-- `MatriculaModel.determinar_estado` on a possibly absent (`None`)
grade.  With `es_abandono` false and `nota_final = None`, the Python
comparison `nota_final >= curso_obj.nota_aprobacion` raises a
`TypeError` before the later `nota_final is None` branch can run;
the raise is modelled as `.error`. -/
def determinar_estado (notaFinal : Option ℚ) (cursoObj : Curso)
    (esAbandono : Bool) (hoy : ℤ) : Except String Estado :=
  if esAbandono then .ok .NO_REALIZO
  else
    match notaFinal with
    | none => .error "TypeError: '>=' not supported between NoneType and float"
    | some n => .ok (determinarEstadoNum n cursoObj esAbandono hoy)

/-- Round-half-to-even on rationals, the tie-breaking rule of Python's
builtin `round`.  `Int.fdiv q.num q.den` is the floor of `q`. -/
def roundHalfEven (q : ℚ) : ℤ :=
  let f : ℤ := Int.fdiv q.num q.den
  let r : ℚ := qsub q (qofInt f)
  if r < mkRat 1 2 then f
  else if mkRat 1 2 < r then f + 1
  else if f % 2 = 0 then f else f + 1

/-- Python `round(x, 2)` modelled on exact rationals. -/
def pyRound2 (q : ℚ) : ℚ := qdiv (qofInt (roundHalfEven (qmul q 100))) 100

/-- One entry of the list passed to `calcular_nota_ponderada`: the dict
`{'puntaje': ..., 'peso': ...}`. -/
structure EntradaNota where
  puntaje : ℚ
  peso : ℚ
deriving DecidableEq, Repr

/-- `MatriculaModel.calcular_nota_ponderada`
(`src/models/matricula_model.py` lines 195-215): sums
`(puntaje / 10) * peso`, divides by 10, rounds to 2 decimals. -/
def calcular_nota_ponderada (listaNotas : List EntradaNota) : ℚ :=
  let sumaPonderada := listaNotas.foldl
    (fun acc item => qadd acc (qmul (qdiv item.puntaje 10) item.peso)) 0
  pyRound2 (qdiv sumaPonderada 10)

/-! ## `utilities/sanitizer.py`

Cell contents are modelled as ASCII character lists; a `none` input
models a value for which `pd.isna` is true (`None` / float NaN).
`str.isdigit` is modelled on the decimal digits `'0'..'9'`. -/

/-- ASCII whitespace, for Python `str.strip`. -/
def esEspacio (c : Char) : Bool :=
  c = ' ' || c = '\t' || c = '\n' || c = '\r'

/-- Python `str.strip()` on ASCII text. -/
def pyStrip (l : List Char) : List Char :=
  ((l.dropWhile esEspacio).reverse.dropWhile esEspacio).reverse

/-- Python `str.lower()` on ASCII text. -/
def pyLower (l : List Char) : List Char := l.map Char.toLower

/-- Python `str.upper()` on ASCII text. -/
def pyUpper (l : List Char) : List Char := l.map Char.toUpper

/-- Python `s.replace('.0', '')`: removes every non-overlapping
occurrence of the two-character pattern `".0"`, scanning left to right
and resuming after each removed occurrence. -/
def quitarPuntoCero : List Char → List Char
  | '.' :: '0' :: rest => quitarPuntoCero rest
  | c :: rest => c :: quitarPuntoCero rest
  | [] => []

/-- Python `s.replace(c, '')` for a single character `c`. -/
def quitarCaracter (c : Char) (l : List Char) : List Char :=
  l.filter (fun x => x ≠ c)

/-- `Sanitizer.limpiar_cedula` (`src/utilities/sanitizer.py` lines
72-87): `str(valor).strip().replace('.0', '')` followed by removal of
`'-'`, `'.'` and `','`; `pd.isna` input yields the empty string. -/
def limpiar_cedula (valor : Option (List Char)) : List Char :=
  match valor with
  | none => []
  | some s =>
    let c := quitarPuntoCero (pyStrip s)
    quitarCaracter ',' (quitarCaracter '.' (quitarCaracter '-' c))

/-- Decimal digit test, the model of Python `str.isdigit` restricted to
ASCII. -/
def esDigito (c : Char) : Bool := '0' ≤ c && c ≤ '9'

/-- Numeric value of a decimal digit character. -/
def digitVal (c : Char) : ℕ := c.toNat - '0'.toNat

/-- Numeric value of a decimal digit string (Python `int` on a digit
string). -/
def natVal (l : List Char) : ℕ := l.foldl (fun a c => 10 * a + digitVal c) 0

/-- A restriction of Python `float(s)` to the forms the program's grade
cells take: optional sign, decimal digits, optionally one decimal
point, at least one digit; `none` models `ValueError`.  (Exponent,
`inf` and `nan` forms are not modelled; `"nan"` is intercepted by a
sentinel check before `float` is reached.) -/
def pyFloat (s : List Char) : Option ℚ :=
  let (signo, resto) : ℤ × List Char :=
    match s with
    | '-' :: r => (-1, r)
    | '+' :: r => (1, r)
    | r => (1, r)
  let entero := resto.takeWhile esDigito
  let resto2 := resto.dropWhile esDigito
  match resto2 with
  | [] => if entero = [] then none else some (qofInt (signo * natVal entero))
  | '.' :: frac =>
    if frac.all esDigito && !(entero = [] && frac = []) then
      some (mkRat (signo * (natVal entero * 10 ^ frac.length + natVal frac))
        (10 ^ frac.length))
    else none
  | _ => none

/-- `Sanitizer.limpiar_nota` (`src/utilities/sanitizer.py` lines
89-107): `pd.isna` yields `0.0`; otherwise strip, turn decimal commas
into dots, map the sentinels `"-"`, `""`, `"nan"`, `"None"` to `0.0`,
and fall back to `0.0` when `float()` raises. -/
def limpiar_nota (valor : Option (List Char)) : ℚ :=
  match valor with
  | none => 0
  | some v =>
    let sVal := (pyStrip v).map (fun c => if c = ',' then '.' else c)
    if sVal = ['-'] || sVal = [] || sVal = ['n', 'a', 'n'] ||
        sVal = ['N', 'o', 'n', 'e'] then 0
    else
      match pyFloat sVal with
      | some q => q
      | none => 0

/-- `Sanitizer.validar_cedula_ecuador` (`src/utilities/sanitizer.py`
lines 109-141): modulus-10 validation of an Ecuadorian national id. -/
def validar_cedula_ecuador (cedula : List Char) : Bool :=
  -- if not cedula.isdigit() or len(cedula) != 10: return False
  if !(cedula ≠ [] && cedula.all esDigito) || cedula.length ≠ 10 then false
  else
    -- provincia = int(cedula[0:2])
    let provincia := natVal (cedula.take 2)
    if !(1 ≤ provincia && provincia ≤ 24 || provincia = 30) then false
    else
      let coeficientes : List ℕ := [2, 1, 2, 1, 2, 1, 2, 1, 2]
      let total : ℕ := (((cedula.take 9).map digitVal).zip coeficientes).foldl
        (fun acc p =>
          let valor := p.1 * p.2
          acc + (if valor ≥ 10 then valor - 9 else valor)) 0
      let digitoVerificador := digitVal (cedula.getD 9 '0')
      let residuo := total % 10
      let esperado := if residuo = 0 then 0 else 10 - residuo
      digitoVerificador = esperado

/-! ## Recompute sweeps of `models/matricula_model.py` -/

/-- The part of a `Matricula` row the sweeps read and write. -/
structure Matricula where
  notaFinal : Option ℚ
  estado : Estado
deriving DecidableEq, Repr, Inhabited

/-- Python `mat.nota_final or 0.0`: `None` (and the falsy `0.0`) become
`0.0`; any other float is kept. -/
def pyOrCero (nota : Option ℚ) : ℚ :=
  match nota with
  | none => 0
  | some q => q

/-- `MatriculaModel.actualizar_estados_por_curso`
(`src/models/matricula_model.py` lines 217-268) restricted to the
enrollments of the course: each one is recomputed with
`es_abandono := (mat.estado == "NO REALIZO")` and `mat.nota_final or
0.0`. -/
def actualizar_estados_por_curso (curso : Curso) (hoy : ℤ)
    (matriculas : List Matricula) : List Matricula :=
  matriculas.map fun mat =>
    -- CORRECCIÓN: Respetar NO REALIZO aunque la nota sea 0
    let esAbandono := mat.estado = Estado.NO_REALIZO
    let nuevo := determinarEstadoNum (pyOrCero mat.notaFinal) curso esAbandono hoy
    { mat with estado := nuevo }

/-- An enrollment row joined with its course, as produced by the query
of `actualizar_estados_matriculas`. -/
structure FilaMatricula where
  matricula : Matricula
  curso : Curso
deriving DecidableEq, Repr

/-- The SQL filter `Curso.fecha_final < hoy`: false for a `NULL` end
date. -/
def cursoCerrado (hoy : ℤ) (c : Curso) : Bool :=
  match c.fechaFinal with
  | some f => f < hoy
  | none => false

/-- The selection of the startup maintenance sweep: enrollments still
`EN CURSO` whose course already closed. -/
def seleccionVencidas (hoy : ℤ) (filas : List FilaMatricula) : List FilaMatricula :=
  filas.filter fun fl =>
    cursoCerrado hoy fl.curso && fl.matricula.estado = Estado.EN_CURSO

/-- `MatriculaModel.actualizar_estados_matriculas`
(`src/models/matricula_model.py` lines 270-321): every selected
enrollment is recomputed with `es_abandono=False` and `mat.nota_final
or 0.0`; unselected rows are untouched. -/
def actualizar_estados_matriculas (hoy : ℤ)
    (filas : List FilaMatricula) : List FilaMatricula :=
  filas.map fun fl =>
    if cursoCerrado hoy fl.curso && fl.matricula.estado = Estado.EN_CURSO then
      let nuevo := determinarEstadoNum (pyOrCero fl.matricula.notaFinal)
        fl.curso false hoy
      { fl with matricula := { fl.matricula with estado := nuevo } }
    else fl

/-! ## `controllers/import_processor.py` -/

/-- A spreadsheet row, with the student columns already resolved by the
column mapping and the remaining activity cells as an association list
`column name ↦ cell`.  A `none` cell is one for which `pd.isna` holds. -/
structure FilaExcel where
  cedula : Option (List Char)
  nombre : Option (List Char)
  apellido : Option (List Char)
  centro : Option (List Char)
  correo : Option (List Char)
  institucion : Option (List Char)
  celdas : List (List Char × Option (List Char))
deriving Repr

/-- `Sanitizer.limpiar_texto` on ASCII text (the unicode accent
stripping is the identity there): `pd.isna` or blank yields `""`,
otherwise strip and uppercase. -/
def limpiar_texto (texto : Option (List Char)) : List Char :=
  match texto with
  | none => []
  | some t => if pyStrip t = [] then [] else pyUpper (pyStrip t)

/-- Python `str(cell)` for a possibly-NaN cell: `str(nan)` is
`"nan"`. -/
def strCelda (raw : Option (List Char)) : List Char :=
  match raw with
  | none => ['n', 'a', 'n']
  | some s => s

/-- `DetalleCalificacion` of `database/schemas.py`. -/
structure DetalleCalificacion where
  evaluacionId : List Char
  puntaje : ℚ
deriving DecidableEq, Repr

/-- `RegistroImportado` of `database/schemas.py` (the `raw_row` field is
not modelled). -/
structure RegistroImportado where
  filaExcel : ℕ
  cedulaLimpia : List Char
  cedulaOriginal : List Char
  nombreLimpio : List Char
  centroNombre : List Char
  correo : List Char
  institucion : List Char
  notaFinal : ℚ
  estadoSugerido : Estado
  detallesNotas : List DetalleCalificacion
  esAliasConocido : Bool
  esValidaAlgoritmo : Bool
  esNoRealizo : Bool
deriving DecidableEq, Repr

/-- The data `Validator.__init__` receives: course rules, known-alias
cache, the activity-column mapping, the weighting scheme, the
`CORRECCIONES_CENTROS` table of `config/mappings.py`, and today's
date. -/
structure ConfigValidador where
  curso : Curso
  cacheAlias : List (List Char × List Char)
  mapaActividades : List (List Char × List Char)
  esquemaPonderacion : List (List Char × ℚ)
  correcciones : List (List Char × List Char)
  hoy : ℤ
deriving Repr

/-- The blank-cell test of `Validator._procesar_notas_fila`:
`not pd.isna(raw) and str(raw).strip() not in ["-", "", "nan"]`. -/
def celdaNoVacia (raw : Option (List Char)) : Bool :=
  match raw with
  | none => false
  | some s =>
    !(pyStrip s = ['-'] || pyStrip s = [] || pyStrip s = ['n', 'a', 'n'])

/-- The body of the activity loop of `Validator._procesar_notas_fila`:
reads one mapped cell, updates the all-blank flag, cleans the score and
extends the calculation and detail lists. -/
def pasoNotas (cfg : ConfigValidador) (row : FilaExcel)
    (acc : List EntradaNota × List DetalleCalificacion × Bool)
    (par : List Char × List Char) :
    List EntradaNota × List DetalleCalificacion × Bool :=
  let raw := (row.celdas.lookup par.1).getD none
  let todoVacio := acc.2.2 && !celdaNoVacia raw
  let valNota := limpiar_nota raw
  let porcentaje := (cfg.esquemaPonderacion.lookup par.2).getD 0
  (acc.1 ++ [⟨valNota, porcentaje⟩], acc.2.1 ++ [⟨par.2, valNota⟩], todoVacio)

/-- `Validator._procesar_notas_fila`
(`src/controllers/import_processor.py` lines 185-235): extracts the
mapped activity cells, cleans each score, tracks whether every cell was
blank, and delegates average and status to the model.  Returns
`(promedio_final, estado, detalles, todo_vacio)`. -/
def procesarNotasFila (cfg : ConfigValidador) (row : FilaExcel) :
    ℚ × Estado × List DetalleCalificacion × Bool :=
  let resultado := cfg.mapaActividades.foldl (pasoNotas cfg row) ([], [], true)
  let promedioFinal := calcular_nota_ponderada resultado.1
  let estado := determinarEstadoNum promedioFinal cfg.curso resultado.2.2 cfg.hoy
  (promedioFinal, estado, resultado.2.1, resultado.2.2)

/-- The body of the row loop of `Validator.procesar`
(`src/controllers/import_processor.py` lines 133-183): `none` when the
row is skipped (empty or literal `"nan"` identifier after cleaning). -/
def registroDeFila (cfg : ConfigValidador) (fila : ℕ) (row : FilaExcel) :
    Option RegistroImportado :=
  let cedulaLimpia := limpiar_cedula row.cedula
  if cedulaLimpia = [] || pyLower cedulaLimpia = ['n', 'a', 'n'] then none
  else
    let esAlias := (cfg.cacheAlias.lookup cedulaLimpia).isSome
    let cedulaFinal := (cfg.cacheAlias.lookup cedulaLimpia).getD cedulaLimpia
    let esValida := validar_cedula_ecuador cedulaFinal
    let nombre := limpiar_texto row.nombre
    let apellido := limpiar_texto row.apellido
    let centroRaw := limpiar_texto row.centro
    let notas := procesarNotasFila cfg row
    let nombreCompleto := pyStrip (apellido ++ [' '] ++ nombre)
    some {
      filaExcel := fila
      cedulaLimpia := cedulaFinal
      cedulaOriginal := cedulaLimpia
      nombreLimpio :=
        if nombreCompleto = []
        then ['S', 'I', 'N', ' ', 'N', 'O', 'M', 'B', 'R', 'E']
        else nombreCompleto
      centroNombre := (cfg.correcciones.lookup centroRaw).getD centroRaw
      correo := pyStrip (strCelda row.correo)
      institucion := limpiar_texto row.institucion
      notaFinal := notas.1
      estadoSugerido := notas.2.1
      detallesNotas := notas.2.2.1
      esAliasConocido := esAlias
      esValidaAlgoritmo := esValida
      esNoRealizo := notas.2.2.2 }

/-- The row loop of `Validator.procesar` from DataFrame index `idx`
(`fila = idx + 2`). -/
def procesarAux (cfg : ConfigValidador) :
    ℕ → List FilaExcel → List RegistroImportado × List RegistroImportado
  | _, [] => ([], [])
  | idx, row :: resto =>
    let siguientes := procesarAux cfg (idx + 1) resto
    match registroDeFila cfg (idx + 2) row with
    | none => siguientes
    | some reg =>
      if reg.esAliasConocido || reg.esValidaAlgoritmo then
        (reg :: siguientes.1, siguientes.2)
      else
        (siguientes.1, reg :: siguientes.2)

/-- `Validator.procesar`: returns `(validos, revision)`. -/
def procesar (cfg : ConfigValidador) (df : List FilaExcel) :
    List RegistroImportado × List RegistroImportado :=
  procesarAux cfg 0 df

/-! ## `services/persistence.py`

The database and the service's caches are explicit state.  A raised
exception inside one row's commit is modelled by the `.error` branch of
`Except`; where the exception can arise is chosen by an oracle
`falla : PuntoFallo → Bool` ("does this DB call raise for this
row?"), quantified over in the theorems.  Error strings appended to
`resultado.errores` are modelled as structured `NotaError` values, one
constructor per `append` site in the source. -/

/-- A row of the `centros` table (only the id is read). -/
structure Centro where
  id : ℕ
deriving DecidableEq, Repr

/-- A row of the `personas` table, restricted to the fields
`guardar_lote` reads or writes. -/
structure Persona where
  id : ℕ
  cedula : List Char
  nombre : List Char
  centroId : ℕ
deriving DecidableEq, Repr

/-- A row of the `matriculas` table, restricted to the fields
`guardar_lote` reads or writes. -/
structure MatriculaBD where
  id : ℕ
  personaId : ℕ
  cursoId : ℕ
  centroId : ℕ
  notaFinal : ℚ
  estado : Estado
deriving DecidableEq, Repr

/-- A row of the `calificaciones` table. -/
structure Calificacion where
  matriculaId : ℕ
  evaluacionId : List Char
  puntaje : ℚ
deriving DecidableEq, Repr

/-- One entry of a report's error list; each constructor models the
f-string appended at one site of `persistence.py` /
`importer_window.py`. -/
inductive NotaError where
  /-- "Error Crítico: El curso no existe." -/
  | cursoNoExiste
  /-- "Fila N: Centro '...' no existe en BD." -/
  | centroNoExiste (fila : ℕ) (centro : List Char)
  /-- "Fila N (nombre): Error crítico BD: ..." -/
  | errorBD (fila : ℕ) (nombre : List Char) (msg : List Char)
  /-- "Duplicado interno: ced (Se usa fila N)." -/
  | duplicadoInterno (cedula : List Char) (fila : ℕ)
  /-- "Fusión: Se descartó X en favor de existente Y." -/
  | fusionDescarte (nombre : List Char) (nombreExistente : List Char)
  /-- "Omitido por usuario: nombre (Cédula: ...)" -/
  | omitidoUsuario (nombre : List Char) (cedula : List Char)
deriving DecidableEq, Repr

/-- `ResultadoProceso` of `database/schemas.py`. -/
structure ResultadoProceso where
  nuevosEstudiantes : ℕ := 0
  matriculasNuevas : ℕ := 0
  matriculasActualizadas : ℕ := 0
  registrosOmitidos : ℕ := 0
  errores : List NotaError := []
deriving DecidableEq, Repr

/-- The state seen by `PersistenceService`: the tables and the caches
loaded by `cargar_caches`.  `matriculas` is kept newest-first because
`MatriculaModel.search` orders by id descending; `personas` is kept in
insertion order. -/
structure ServicioBD where
  cursos : List (ℕ × Curso)
  personas : List Persona
  matriculas : List MatriculaBD
  aliases : List (List Char × ℕ)
  calificaciones : List Calificacion
  cacheCentros : List (List Char × Centro)
  cacheEstudiantes : List (List Char × Persona)
  cacheMatriculas : List (ℕ × MatriculaBD)
  nextPersonaId : ℕ
  nextMatriculaId : ℕ
deriving DecidableEq, Repr

/-- Python dict assignment on an association list: replaces in place,
else appends (insertion order is preserved, as for a Python dict). -/
def insertarAssoc {α β : Type} [BEq α] :
    List (α × β) → α → β → List (α × β)
  | [], k, v => [(k, v)]
  | (k', v') :: resto, k, v =>
    if k' == k then (k, v) :: resto else (k', v') :: insertarAssoc resto k v

/-- `model_persona.create`: inserts with the next fresh id. -/
def crearPersona (st : ServicioBD) (ced nombre : List Char)
    (centroId : ℕ) : ServicioBD :=
  { st with
    personas := st.personas ++ [⟨st.nextPersonaId, ced, nombre, centroId⟩],
    nextPersonaId := st.nextPersonaId + 1 }

/-- `model_persona.search(filters={"cedula": ...}, first=True)`: first
match in table order. -/
def buscarPersonaPorCedula (st : ServicioBD) (ced : List Char) : Option Persona :=
  st.personas.find? (fun p => p.cedula == ced)

/-- `model_persona.update(est.id, {"centro_id": ...})` followed by the
in-place mutation `est.centro_id = centro.id` of the object that also
sits in `cache_estudiantes`. -/
def actualizarPersonaCentro (st : ServicioBD) (pid centroId : ℕ) : ServicioBD :=
  { st with
    personas := st.personas.map
      (fun p => if p.id = pid then { p with centroId := centroId } else p),
    cacheEstudiantes := st.cacheEstudiantes.map
      (fun kv => if kv.2.id = pid then (kv.1, { kv.2 with centroId := centroId }) else kv) }

/-- `PersistenceService._registrar_alias`: create-if-absent; its
internal `try/except: pass` swallows every exception, so it is total. -/
def registrarAlias (st : ServicioBD) (pid : ℕ) (aliasVal : List Char) : ServicioBD :=
  match st.aliases.lookup aliasVal with
  | some _ => st
  | none => { st with aliases := st.aliases ++ [(aliasVal, pid)] }

/-- `model_matricula.create`: prepends (newest first) with the next
fresh id. -/
def crearMatricula (st : ServicioBD) (personaId cursoId centroId : ℕ)
    (nota : ℚ) (estado : Estado) : ServicioBD :=
  { st with
    matriculas := ⟨st.nextMatriculaId, personaId, cursoId, centroId, nota, estado⟩ :: st.matriculas,
    nextMatriculaId := st.nextMatriculaId + 1 }

/-- `model_matricula.search(filters={"persona_id": ..., "curso_id":
...}, first=True)`: its default order is id descending, i.e. the head
of the newest-first table. -/
def buscarMatricula (st : ServicioBD) (personaId cursoId : ℕ) : Option MatriculaBD :=
  st.matriculas.find? (fun m => m.personaId == personaId && m.cursoId == cursoId)

/-- `model_matricula.update(matricula.id, {...})`: table update only
(the object cached in `cache_matriculas` is not refreshed). -/
def actualizarMatricula (st : ServicioBD) (mid : ℕ) (nota : ℚ)
    (estado : Estado) (centroId : ℕ) : ServicioBD :=
  { st with
    matriculas := st.matriculas.map fun m =>
      if m.id = mid then
        { m with notaFinal := nota, estado := estado, centroId := centroId }
      else m }

/-- `PersistenceService._guardar_calificaciones`: upsert of each
detail; its per-detail `try/except` only prints, so it is total. -/
def guardarCalificaciones (st : ServicioBD) (matId : ℕ)
    (detalles : List DetalleCalificacion) : ServicioBD :=
  detalles.foldl (fun s det =>
    if s.calificaciones.any
        (fun c => c.matriculaId == matId && c.evaluacionId == det.evaluacionId) then
      { s with calificaciones := s.calificaciones.map fun c =>
          if c.matriculaId == matId && c.evaluacionId == det.evaluacionId then
            { c with puntaje := det.puntaje }
          else c }
    else
      { s with calificaciones := s.calificaciones ++ [⟨matId, det.evaluacionId, det.puntaje⟩] })
    st

/-- The DB calls of one row's commit at which the exception oracle may
fire. -/
inductive PuntoFallo where
  | crearPersona
  | buscarPersona
  | actualizarPersona
  | crearMatricula
  | buscarMatricula
  | actualizarMatricula
deriving DecidableEq, Repr

/-- The tail of the row body of `guardar_lote`
(`src/services/persistence.py`, alias registration through
`_guardar_calificaciones`), once `centro` and `est` are known.
`.error` carries the state at the moment of the raise, since counter
increments made before an exception persist. -/
def cuerpoFilaResto (falla : PuntoFallo → Bool) (cursoId : ℕ) (curso : Curso)
    (hoy : ℤ) (reg : RegistroImportado) (centro : Centro) (est : Persona)
    (res : ResultadoProceso) (st : ServicioBD) :
    Except (ResultadoProceso × ServicioBD × List Char) (ResultadoProceso × ServicioBD) :=
  -- Registro de Alias
  let st1 :=
    if reg.cedulaOriginal ≠ reg.cedulaLimpia then
      registrarAlias st est.id reg.cedulaOriginal
    else st
  -- C. CÁLCULO DE ESTADO (reg.nota_final is a float, never None)
  let estadoFinal := determinarEstadoNum reg.notaFinal curso
    (reg.esNoRealizo || reg.estadoSugerido = Estado.NO_REALIZO) hoy
  -- Si es abandono, forzamos nota 0 visual
  let notaFinalBD : ℚ := if estadoFinal = Estado.NO_REALIZO then 0 else reg.notaFinal
  -- D. Gestión de Matrícula
  match st1.cacheMatriculas.lookup est.id with
  | none =>
    if falla .crearMatricula then .error (res, st1, "IntegrityError en create matricula".toList)
    else
      let st2 := crearMatricula st1 est.id cursoId centro.id notaFinalBD estadoFinal
      if falla .buscarMatricula then .error (res, st2, "OperationalError en search matricula".toList)
      else
        match buscarMatricula st2 est.id cursoId with
        | some matricula =>
          let st3 := { st2 with
            cacheMatriculas := insertarAssoc st2.cacheMatriculas est.id matricula }
          let res1 := { res with matriculasNuevas := res.matriculasNuevas + 1 }
          -- E. Guardado de Notas Detalladas
          let notasAGuardar :=
            if estadoFinal = Estado.NO_REALIZO then
              reg.detallesNotas.map (fun d => { d with puntaje := 0 })
            else reg.detallesNotas
          .ok (res1, guardarCalificaciones st3 matricula.id notasAGuardar)
        | none =>
          -- unreachable: the enrollment just created is always found;
          -- Python would count matriculas_nuevas and then raise
          -- AttributeError at `matricula.id`
          .error ({ res with matriculasNuevas := res.matriculasNuevas + 1 }, st2,
            "AttributeError: NoneType has no attribute id".toList)
  | some matricula =>
    if falla .actualizarMatricula then .error (res, st1, "OperationalError en update matricula".toList)
    else
      let st2 := actualizarMatricula st1 matricula.id notaFinalBD estadoFinal centro.id
      let res1 := { res with matriculasActualizadas := res.matriculasActualizadas + 1 }
      let notasAGuardar :=
        if estadoFinal = Estado.NO_REALIZO then
          reg.detallesNotas.map (fun d => { d with puntaje := 0 })
        else reg.detallesNotas
      .ok (res1, guardarCalificaciones st2 matricula.id notasAGuardar)

/-- The `try:`-body of one iteration of the row loop of `guardar_lote`
(`src/services/persistence.py` lines 113-193): center validation,
student management, then `cuerpoFilaResto`. -/
def cuerpoFila (falla : PuntoFallo → Bool) (cursoId : ℕ) (curso : Curso)
    (hoy : ℤ) (reg : RegistroImportado) (res : ResultadoProceso)
    (st : ServicioBD) :
    Except (ResultadoProceso × ServicioBD × List Char) (ResultadoProceso × ServicioBD) :=
  -- A. Validación de Centro
  match st.cacheCentros.lookup reg.centroNombre with
  | none =>
    .ok ({ res with
      errores := res.errores ++ [.centroNoExiste reg.filaExcel reg.centroNombre],
      registrosOmitidos := res.registrosOmitidos + 1 }, st)
  | some centro =>
    -- B. Gestión de Estudiante
    match st.cacheEstudiantes.lookup reg.cedulaLimpia with
    | none =>
      if falla .crearPersona then .error (res, st, "IntegrityError en create persona".toList)
      else
        let st1 := crearPersona st reg.cedulaLimpia reg.nombreLimpio centro.id
        if falla .buscarPersona then .error (res, st1, "OperationalError en search persona".toList)
        else
          match buscarPersonaPorCedula st1 reg.cedulaLimpia with
          | some est =>
            let st2 := { st1 with
              cacheEstudiantes := insertarAssoc st1.cacheEstudiantes reg.cedulaLimpia est }
            let res1 := { res with nuevosEstudiantes := res.nuevosEstudiantes + 1 }
            cuerpoFilaResto falla cursoId curso hoy reg centro est res1 st2
          | none =>
            -- unreachable: the person just created is always found;
            -- Python would cache None, count nuevos_estudiantes and
            -- later raise AttributeError at the first `est.id`
            .error ({ res with nuevosEstudiantes := res.nuevosEstudiantes + 1 }, st1,
              "AttributeError: NoneType has no attribute id".toList)
    | some est =>
      -- CAMBIO 1: Actualizar centro del Estudiante si es diferente
      if est.centroId ≠ centro.id then
        if falla .actualizarPersona then .error (res, st, "OperationalError en update persona".toList)
        else
          let st1 := actualizarPersonaCentro st est.id centro.id
          cuerpoFilaResto falla cursoId curso hoy reg centro
            { est with centroId := centro.id } res st1
      else
        cuerpoFilaResto falla cursoId curso hoy reg centro est res st

/-- One iteration of the row loop with its `except Exception` handler:
a raise is recorded with the row number and name, counted as an
omission, and the loop continues. -/
def pasoFila (falla : PuntoFallo → Bool) (cursoId : ℕ) (curso : Curso)
    (hoy : ℤ) (res : ResultadoProceso) (st : ServicioBD)
    (reg : RegistroImportado) : ResultadoProceso × ServicioBD :=
  match cuerpoFila falla cursoId curso hoy reg res st with
  | .ok out => out
  | .error (res', st', msg) =>
    ({ res' with
      errores := res'.errores ++ [.errorBD reg.filaExcel reg.nombreLimpio msg],
      registrosOmitidos := res'.registrosOmitidos + 1 }, st')

/-- The row loop of `guardar_lote`; `i` indexes the rows for the
exception oracle. -/
def guardarLoteAux (falla : ℕ → PuntoFallo → Bool) (cursoId : ℕ)
    (curso : Curso) (hoy : ℤ) :
    ℕ → ResultadoProceso → ServicioBD → List RegistroImportado →
    ResultadoProceso × ServicioBD
  | _, res, st, [] => (res, st)
  | i, res, st, reg :: resto =>
    let out := pasoFila (falla i) cursoId curso hoy res st reg
    guardarLoteAux falla cursoId curso hoy (i + 1) out.1 out.2 resto

/-- `PersistenceService.guardar_lote`
(`src/services/persistence.py` lines 93-199).  `hoy` makes the hidden
input `date.today()` of `determinar_estado` explicit; `falla` is the
exception oracle. -/
def guardar_lote (falla : ℕ → PuntoFallo → Bool) (hoy : ℤ)
    (st : ServicioBD) (registros : List RegistroImportado) (cursoId : ℕ) :
    ResultadoProceso × ServicioBD :=
  -- 1. Obtener Metadatos del Curso
  match st.cursos.lookup cursoId with
  | none => ({ errores := [.cursoNoExiste] }, st)
  | some curso => guardarLoteAux falla cursoId curso hoy 0 {} st registros

/-! ## `utilities/importer_window.py`

The interactive dialogs are modelled by a user-decision oracle: for
each revision row, a finite script of dialog answers.  An exhausted
script models a dialog loop in which the user never concludes (the
window would block), yielding `none`. -/

/-- The user's answer to the internal-conflict message box. -/
inductive EleccionConflicto where
  | mantenerExistente
  | sobrescribir
  | cancelarConflicto
deriving DecidableEq, Repr

/-- One pass of the per-row review dialog: either the user closes the
dialog (and then confirms or declines the omission), or enters a
replacement id together with the answers used if the conflict box or
the merge-with-existing box comes up. -/
inductive Decision where
  | cancelar (confirmarOmision : Bool)
  | ingresar (ced : List Char) (eleccion : EleccionConflicto) (fusionar : Bool)
deriving DecidableEq, Repr

/-- Terminal outcome of one revision row's dialog loop. -/
inductive ResolucionFila where
  | aceptada (reg : RegistroImportado)
  | omitida
  | descartadaPorExistente (nombreExistente : List Char)
deriving DecidableEq, Repr

/-- `GestorImportacion._validar_existencia_bd` with the user's merge
answer: when the id already exists in the student cache the user is
asked whether to merge. -/
def pasaValidacionBD (cacheEstudiantes : List (List Char × Persona))
    (ced : List Char) (fusionar : Bool) : Bool :=
  match cacheEstudiantes.lookup ced with
  | some _ => fusionar
  | none => true

/-- The `while True` dialog loop for one revision row
(`src/utilities/importer_window.py` lines 317-383), consuming one
`Decision` per pass; an empty script means the loop never concludes. -/
def resolverUno (mapaAceptados mapaValidos : List (List Char × RegistroImportado))
    (cacheEstudiantes : List (List Char × Persona)) (reg : RegistroImportado) :
    List Decision → Option ResolucionFila
  | [] => none
  | d :: ds =>
    match d with
    | .cancelar confirmarOmision =>
      if confirmarOmision then some .omitida
      else resolverUno mapaAceptados mapaValidos cacheEstudiantes reg ds
    | .ingresar ced eleccion fusionar =>
      let nuevaCed := pyStrip ced
      if !validar_cedula_ecuador nuevaCed then
        -- "Cédula inválida." → continue
        resolverUno mapaAceptados mapaValidos cacheEstudiantes reg ds
      else if (mapaAceptados.lookup nuevaCed).isSome then
        -- "Ya asignada a ..." → continue
        resolverUno mapaAceptados mapaValidos cacheEstudiantes reg ds
      else
        match mapaValidos.lookup nuevaCed with
        | some dup =>
          match eleccion with
          | .mantenerExistente => some (.descartadaPorExistente dup.nombreLimpio)
          | .cancelarConflicto =>
            resolverUno mapaAceptados mapaValidos cacheEstudiantes reg ds
          | .sobrescribir =>
            if !pasaValidacionBD cacheEstudiantes nuevaCed fusionar then
              resolverUno mapaAceptados mapaValidos cacheEstudiantes reg ds
            else some (.aceptada { reg with cedulaLimpia := nuevaCed })
        | none =>
          if !pasaValidacionBD cacheEstudiantes nuevaCed fusionar then
            resolverUno mapaAceptados mapaValidos cacheEstudiantes reg ds
          else some (.aceptada { reg with cedulaLimpia := nuevaCed })

/-- Accumulated state of `_resolver_revisiones_interactivas` together
with the window-level lists it touches (`lista_omitidos`,
`reporte_errores` additions). -/
structure EstadoRevision where
  aceptados : List RegistroImportado := []
  mapaAceptados : List (List Char × RegistroImportado) := []
  listaOmitidos : List RegistroImportado := []
  reporte : List NotaError := []
deriving DecidableEq, Repr

/-- The row loop of `_resolver_revisiones_interactivas`; `decisiones i`
is the dialog script of the `i`-th revision row.  `none` when some
row's script is exhausted (the window would block forever). -/
def resolverRevisiones (decisiones : ℕ → List Decision)
    (mapaValidos : List (List Char × RegistroImportado))
    (cacheEstudiantes : List (List Char × Persona)) :
    ℕ → List RegistroImportado → EstadoRevision → Option EstadoRevision
  | _, [], acc => some acc
  | i, reg :: resto, acc =>
    match resolverUno acc.mapaAceptados mapaValidos cacheEstudiantes reg (decisiones i) with
    | none => none
    | some (.aceptada reg') =>
      resolverRevisiones decisiones mapaValidos cacheEstudiantes (i + 1) resto
        { acc with
          aceptados := acc.aceptados ++ [reg'],
          mapaAceptados := insertarAssoc acc.mapaAceptados reg'.cedulaLimpia reg' }
    | some .omitida =>
      resolverRevisiones decisiones mapaValidos cacheEstudiantes (i + 1) resto
        { acc with
          listaOmitidos := acc.listaOmitidos ++ [reg],
          reporte := acc.reporte ++ [.omitidoUsuario reg.nombreLimpio reg.cedulaOriginal] }
    | some (.descartadaPorExistente nombreDup) =>
      resolverRevisiones decisiones mapaValidos cacheEstudiantes (i + 1) resto
        { acc with
          reporte := acc.reporte ++ [.fusionDescarte reg.nombreLimpio nombreDup] }

/-- FASE 1 of `_al_terminar_analisis`: deduplication of the valid
records into `mapa_maestro` (a Python dict: replacement keeps the
original position, the last record wins), noting each internal
duplicate. -/
def deduplicarAux : List RegistroImportado →
    List (List Char × RegistroImportado) → List NotaError →
    List (List Char × RegistroImportado) × List NotaError
  | [], mapa, rep => (mapa, rep)
  | reg :: resto, mapa, rep =>
    let rep' :=
      if (mapa.lookup reg.cedulaLimpia).isSome then
        rep ++ [.duplicadoInterno reg.cedulaLimpia reg.filaExcel]
      else rep
    deduplicarAux resto (insertarAssoc mapa reg.cedulaLimpia reg) rep'

/-- Deduplication of the `validos` list from an empty master map. -/
def deduplicar (validos : List RegistroImportado) :
    List (List Char × RegistroImportado) × List NotaError :=
  deduplicarAux validos [] []

/-- FASE 2 of `_al_terminar_analisis`: the interactive resolution runs
only when the revision list is nonempty. -/
def faseResolucion (decisiones : ℕ → List Decision)
    (mapaMaestro : List (List Char × RegistroImportado))
    (cacheEstudiantes : List (List Char × Persona))
    (revision : List RegistroImportado) : Option EstadoRevision :=
  if revision ≠ [] then
    resolverRevisiones decisiones mapaMaestro cacheEstudiantes 0 revision {}
  else some {}

/-- `GestorImportacion._al_terminar_analisis` followed by
`_on_guardado_finished` (`src/utilities/importer_window.py` lines
242-305): deduplication, interactive resolution, merge of corrected
records into the master map, save, and final report assembly.  `st` is
the service state after `cargar_caches`.  `none` models the paths that
never reach the summary: no records at all, a dialog loop that never
concludes, or an empty final list. -/
def alTerminarAnalisis (falla : ℕ → PuntoFallo → Bool) (hoy : ℤ)
    (decisiones : ℕ → List Decision) (st : ServicioBD)
    (validos revision : List RegistroImportado) (cursoId : ℕ) :
    Option (ResultadoProceso × ServicioBD) :=
  if validos = [] ∧ revision = [] then none
  else
    let fase1 := deduplicar validos
    match faseResolucion decisiones fase1.1 st.cacheEstudiantes revision with
    | none => none
    | some rev =>
      let mapaFinal := rev.aceptados.foldl
        (fun m reg => insertarAssoc m reg.cedulaLimpia reg) fase1.1
      let listaFinalUnica := mapaFinal.map Prod.snd
      if listaFinalUnica = [] then none
      else
        let salida := guardar_lote falla hoy st listaFinalUnica cursoId
        -- _on_guardado_finished: add the manual omissions and put the
        -- window-level notes in front of the DB errors
        some ({ salida.1 with
          registrosOmitidos := salida.1.registrosOmitidos + rev.listaOmitidos.length,
          errores := (fase1.2 ++ rev.reporte) ++ salida.1.errores }, salida.2)

/-- Recognizer for internal-duplicate notes. -/
def esDuplicadoInterno : NotaError → Bool
  | .duplicadoInterno _ _ => true
  | _ => false

/-- Recognizer for keep-existing conflict-discard notes. -/
def esFusionDescarte : NotaError → Bool
  | .fusionDescarte _ _ => true
  | _ => false

/-- Recognizer for the notes recorded by `guardar_lote` for an omitted
row (center lookup failure or caught exception). -/
def esNotaOmision : NotaError → Bool
  | .centroNoExiste _ _ => true
  | .errorBD _ _ _ => true
  | _ => false

/-- The row number carried by an omission note. -/
def filaDeNota : NotaError → Option ℕ
  | .centroNoExiste fila _ => some fila
  | .errorBD fila _ _ => some fila
  | _ => none

/-! ## Linking the explicit rational operations to Mathlib's -/

theorem qadd_eq (a b : ℚ) : qadd a b = a + b := (Rat.add_def' a b).symm

theorem qsub_eq (a b : ℚ) : qsub a b = a - b := (Rat.sub_def' a b).symm

theorem qmul_eq (a b : ℚ) : qmul a b = a * b := by
  rw [qmul, Rat.mul_def, Rat.normalize_eq_mkRat]

theorem qdiv_eq (a b : ℚ) : qdiv a b = a / b := by
  rw [qdiv, Rat.div_def']

theorem qofInt_eq (n : ℤ) : qofInt n = (n : ℚ) := Rat.mkRat_one n

/-! ## Theorems -/

/-- C1.  The Status Resolver is claimed to be total, also on an absent
(`None`) grade.  It is not: with the withdrawal flag false, the Python
comparison `nota_final >= curso_obj.nota_aprobacion` raises a
`TypeError` on `None` before the resolver's own
`nota_final is None` branch (line 185 of
`src/models/matricula_model.py`) can run; that branch is dead code.
This evaluation exhibits the raise for an absent grade on a closed
course with pass threshold 7, where the claim instead requires
`NO_REALIZO`. -/
theorem determinar_estado_nota_ausente_lanza :
    determinar_estado none ⟨7, some 100⟩ false 200 =
      .error "TypeError: '>=' not supported between NoneType and float" ∧
    determinar_estado none ⟨7, some 100⟩ true 200 = .ok .NO_REALIZO :=
  ⟨rfl, rfl⟩

/-- The grade-weighting sum, as the spec phrases it: each entry
contributes `(score/10) * weight_percent`, the contributions are
summed, the sum is divided by 10 and rounded to 2 decimal places. -/
def specPromedioPonderado (entradas : List EntradaNota) : ℚ :=
  pyRound2 ((entradas.map (fun e => e.puntaje / 10 * e.peso)).sum / 10)

theorem foldl_qadd_contribuciones (l : List EntradaNota) (acc : ℚ) :
    l.foldl (fun a item => qadd a (qmul (qdiv item.puntaje 10) item.peso)) acc
      = acc + (l.map (fun e => e.puntaje / 10 * e.peso)).sum := by
  induction l generalizing acc with
  | nil => simp
  | cons x xs ih =>
    rw [List.foldl_cons, ih]
    simp only [List.map_cons, List.sum_cons, qadd_eq, qmul_eq, qdiv_eq]
    ring

/-- C2.  The Grade Calculator agrees with the spec's formula on every
entry list, and takes the three sample values the spec lists. -/
theorem calcular_nota_ponderada_spec :
    (∀ l, calcular_nota_ponderada l = specPromedioPonderado l) ∧
    calcular_nota_ponderada [] = 0 ∧
    calcular_nota_ponderada [⟨10, 100⟩] = 10 ∧
    calcular_nota_ponderada [⟨8, 40⟩, ⟨6, 60⟩] = 6.8 := by
  have hgen : ∀ l, calcular_nota_ponderada l = specPromedioPonderado l := by
    intro l
    unfold calcular_nota_ponderada specPromedioPonderado
    simp only [foldl_qadd_contribuciones]
    simp only [qdiv_eq, zero_add]
  refine ⟨hgen, by decide, by decide, ?_⟩
  have h68 : (6.8 : ℚ) = mkRat 34 5 := by
    rw [Rat.mkRat_eq_divInt, Rat.divInt_eq_div]; norm_num
  rw [h68]; decide

/-- C4.  The per-course recompute treats a current `NO REALIZO` status
as a withdrawal (`es_abandono := mat.estado == "NO REALIZO"`), so such
an enrollment keeps `NO REALIZO` whatever its grade, the course's
threshold, or the course's dates. -/
theorem actualizar_por_curso_preserva_no_realizo (curso : Curso) (hoy : ℤ)
    (mats : List Matricula) (i : ℕ) (hi : i < mats.length)
    (h : (mats.getD i default).estado = Estado.NO_REALIZO) :
    ((actualizar_estados_por_curso curso hoy mats).getD i default).estado
      = Estado.NO_REALIZO := by
  induction mats generalizing i with
  | nil => simp at hi
  | cons m ms ih =>
    cases i with
    | zero =>
      simp only [List.getD_cons_zero] at h
      simp [actualizar_estados_por_curso, determinarEstadoNum, h]
    | succ n =>
      simp only [List.getD_cons_succ] at h
      have hn : n < ms.length := by simpa using hi
      simpa [actualizar_estados_por_curso] using
        ih n hn (by simpa [actualizar_estados_por_curso] using h)

/-- The witness of C4: a withdrawn enrollment with grade `0` keeps
`NO REALIZO` after the threshold is lowered to `0`. -/
theorem actualizar_por_curso_preserva_no_realizo_witness :
    (0 : ℕ) < 1 ∧
    (([⟨some 0, Estado.NO_REALIZO⟩] : List Matricula).getD 0 default).estado
      = Estado.NO_REALIZO ∧
    ((actualizar_estados_por_curso ⟨0, some 100⟩ 200
        [⟨some 0, Estado.NO_REALIZO⟩]).getD 0 default).estado
      = Estado.NO_REALIZO :=
  ⟨by decide, by decide,
    actualizar_por_curso_preserva_no_realizo ⟨0, some 100⟩ 200
      [⟨some 0, Estado.NO_REALIZO⟩] 0 (by decide) (by decide)⟩

theorem determinarEstadoNum_cerrado_ne_en_curso (n : ℚ) (c : Curso) (hoy : ℤ)
    (hc : cursoCerrado hoy c = true) :
    determinarEstadoNum n c false hoy ≠ Estado.EN_CURSO := by
  obtain ⟨na, ff⟩ := c
  cases ff with
  | none => simp [cursoCerrado] at hc
  | some f =>
    simp only [cursoCerrado, decide_eq_true_eq] at hc
    unfold determinarEstadoNum
    rw [if_neg (by simp)]
    by_cases hap : na ≤ n
    · rw [if_pos hap]; simp
    · rw [if_neg hap]
      show (if f < hoy then if n = 0 then Estado.NO_REALIZO else Estado.REPROBADO
        else Estado.EN_CURSO) ≠ Estado.EN_CURSO
      rw [if_pos hc]
      split <;> simp

theorem mantenimiento_fija_no_seleccionadas (hoy : ℤ) (filas : List FilaMatricula)
    (fl : FilaMatricula) (hfl : fl ∈ actualizar_estados_matriculas hoy filas) :
    (cursoCerrado hoy fl.curso && fl.matricula.estado = Estado.EN_CURSO) = false := by
  unfold actualizar_estados_matriculas at hfl
  obtain ⟨x, _, hx⟩ := List.mem_map.1 hfl
  by_cases hsel : (cursoCerrado hoy x.curso && x.matricula.estado = Estado.EN_CURSO) = true
  · rw [if_pos hsel] at hx
    subst hx
    simp only [Bool.and_eq_false_iff]
    right
    simp only [decide_eq_false_iff_not]
    exact determinarEstadoNum_cerrado_ne_en_curso _ _ _
      (by simpa using (Bool.and_eq_true_iff.1 hsel).1)
  · rw [if_neg hsel] at hx
    subst hx
    exact Bool.eq_false_iff.2 hsel

theorem actualizar_sin_seleccion (hoy : ℤ) (l : List FilaMatricula)
    (h : ∀ fl ∈ l,
      (cursoCerrado hoy fl.curso && fl.matricula.estado = Estado.EN_CURSO) = false) :
    actualizar_estados_matriculas hoy l = l := by
  induction l with
  | nil => rfl
  | cons x xs ih =>
    have hx := h x (List.mem_cons_self x xs)
    have hxs := ih (fun fl hfl => h fl (List.mem_cons_of_mem x hfl))
    simp only [actualizar_estados_matriculas, List.map_cons] at hxs ⊢
    rw [hxs]
    congr 1
    simp [hx]

/-- C5.  After one maintenance sweep no enrollment of a closed course is
still `EN CURSO`, so the second sweep selects nothing and changes
nothing. -/
theorem mantenimiento_idempotente (hoy : ℤ) (filas : List FilaMatricula) :
    seleccionVencidas hoy (actualizar_estados_matriculas hoy filas) = [] ∧
    actualizar_estados_matriculas hoy (actualizar_estados_matriculas hoy filas)
      = actualizar_estados_matriculas hoy filas := by
  constructor
  · unfold seleccionVencidas
    rw [List.filter_eq_nil_iff]
    intro fl hfl
    simp [mantenimiento_fija_no_seleccionadas hoy filas fl hfl]
  · exact actualizar_sin_seleccion hoy _
      (fun fl hfl => mantenimiento_fija_no_seleccionadas hoy filas fl hfl)

/-- The identifier cleaner as the spec words it: separators (dots,
dashes, commas) are stripped and only a trailing `".0"` float artifact
is removed, so digits elsewhere are preserved. -/
def specLimpiarCedula (valor : Option (List Char)) : List Char :=
  match valor with
  | none => []
  | some s =>
    let t := pyStrip s
    let sinArtefacto :=
      if List.isSuffixOf ['.', '0'] t then t.take (t.length - 2) else t
    quitarCaracter ',' (quitarCaracter '.' (quitarCaracter '-' sinArtefacto))

/-- C9, counterexample.  On `"1.012"` the code removes the inner
`".0"` occurrence and yields `"112"`, losing the digit `0` after the
dot, while the spec's trailing-artifact-only cleaner yields
`"1012"`. -/
theorem limpiar_cedula_pierde_cero_interior :
    limpiar_cedula (some "1.012".toList) = "112".toList ∧
    specLimpiarCedula (some "1.012".toList) = "1012".toList ∧
    limpiar_cedula (some "1.012".toList) ≠ specLimpiarCedula (some "1.012".toList) := by
  refine ⟨by decide, by decide, by decide⟩

/-- C9, amended.  `limpiar_cedula` renders a null input as the empty
string and otherwise strips the value and removes every occurrence of
the two-character substring `".0"` (not only a trailing one), then
every dot, dash and comma; a trailing float artifact is still removed,
but an inner `"0"` that follows a dot is lost with it. -/
theorem limpiar_cedula_quita_todas_las_ocurrencias :
    limpiar_cedula none = [] ∧
    (∀ s, limpiar_cedula (some s) =
      quitarCaracter ',' (quitarCaracter '.'
        (quitarCaracter '-' (quitarPuntoCero (pyStrip s))))) ∧
    limpiar_cedula (some "17123.0".toList) = "17123".toList ∧
    limpiar_cedula (some "1.012".toList) = "112".toList :=
  ⟨rfl, fun _ => rfl, by decide, by decide⟩

/-- The national-id validity predicate as the spec words it: exactly 10
decimal digits, region code in `[1,24]` or `30`, and the 10th digit
equal to the alternating-weight modulus-10 check digit. -/
def specCedulaValida (s : List Char) : Prop :=
  s.length = 10 ∧ (∀ c ∈ s, esDigito c = true) ∧
  (let region := natVal (s.take 2)
   (1 ≤ region ∧ region ≤ 24) ∨ region = 30) ∧
  digitVal (s.getD 9 '0') =
    (let suma : ℕ := (((s.take 9).map digitVal).zip [2, 1, 2, 1, 2, 1, 2, 1, 2]).foldl
        (fun acc p => acc + (if p.1 * p.2 ≥ 10 then p.1 * p.2 - 9 else p.1 * p.2)) 0
     if suma % 10 = 0 then 0 else 10 - suma % 10)

/-- C3.  `validar_cedula_ecuador` accepts exactly the strings the
spec's predicate describes, never raising; it accepts a sample id built
by the algorithm and rejects a single-digit mutation of it. -/
theorem validar_cedula_spec :
    (∀ s, validar_cedula_ecuador s = true ↔ specCedulaValida s) ∧
    validar_cedula_ecuador "1710034065".toList = true ∧
    validar_cedula_ecuador "1710034064".toList = false ∧
    validar_cedula_ecuador "2510034065".toList = false ∧
    validar_cedula_ecuador "171003406".toList = false ∧
    validar_cedula_ecuador "17100340651".toList = false ∧
    validar_cedula_ecuador "17100a4065".toList = false := by
  refine ⟨?_, by decide, by decide, by decide, by decide, by decide, by decide⟩
  intro s
  unfold validar_cedula_ecuador specCedulaValida
  by_cases hlen : s.length = 10
  · have hne : s ≠ [] := by intro h; rw [h] at hlen; simp at hlen
    by_cases hdig : s.all esDigito = true
    · rw [if_neg (by simp [hne, hdig, hlen])]
      by_cases hreg : (1 ≤ natVal (s.take 2) ∧ natVal (s.take 2) ≤ 24) ∨
          natVal (s.take 2) = 30
      · have hregb : (1 ≤ natVal (s.take 2) && natVal (s.take 2) ≤ 24 ||
            natVal (s.take 2) = 30) = true := by
          simpa [Bool.or_eq_true, Bool.and_eq_true, decide_eq_true_eq] using hreg
        rw [if_neg (by rw [hregb]; simp)]
        simp only [decide_eq_true_eq]
        constructor
        · intro h
          exact ⟨hlen, List.all_eq_true.1 hdig, hreg, h⟩
        · rintro ⟨-, -, -, h⟩
          exact h
      · have hregb : (1 ≤ natVal (s.take 2) && natVal (s.take 2) ≤ 24 ||
            natVal (s.take 2) = 30) = false := by
          rw [Bool.eq_false_iff]
          intro hcon
          exact hreg
            (by simpa [Bool.or_eq_true, Bool.and_eq_true, decide_eq_true_eq] using hcon)
        rw [if_pos (by rw [hregb]; simp)]
        simp only [Bool.false_eq_true, false_iff]
        rintro ⟨-, -, hr, -⟩
        exact hreg hr
    · rw [if_pos (by simp [hdig])]
      simp only [Bool.false_eq_true, false_iff]
      rintro ⟨-, hd, -⟩
      exact hdig (List.all_eq_true.2 hd)
  · rw [if_pos (by simp [hlen])]
    simp only [Bool.false_eq_true, false_iff]
    rintro ⟨hl, -⟩
    exact hlen hl

/-- The records the Row Validator keeps, as the spec describes them:
each DataFrame row indexed from spreadsheet row 2, skipped rows
dropped. -/
def listaRegistros (cfg : ConfigValidador) (df : List FilaExcel) :
    List RegistroImportado :=
  (df.enumFrom 0).filterMap (fun p => registroDeFila cfg (p.1 + 2) p.2)

theorem procesarAux_particiona (cfg : ConfigValidador) (df : List FilaExcel) :
    ∀ idx, procesarAux cfg idx df =
      (((df.enumFrom idx).filterMap (fun p => registroDeFila cfg (p.1 + 2) p.2)).filter
          (fun r => r.esAliasConocido || r.esValidaAlgoritmo),
       ((df.enumFrom idx).filterMap (fun p => registroDeFila cfg (p.1 + 2) p.2)).filter
          (fun r => !(r.esAliasConocido || r.esValidaAlgoritmo))) := by
  induction df with
  | nil => intro idx; rfl
  | cons row resto ih =>
    intro idx
    rw [List.enumFrom_cons]
    simp only [List.filterMap_cons]
    unfold procesarAux
    rw [ih (idx + 1)]
    cases hreg : registroDeFila cfg (idx + 2) row with
    | none => rfl
    | some reg =>
      simp only [List.filter_cons]
      by_cases hb : (reg.esAliasConocido || reg.esValidaAlgoritmo) = true
      · simp [hb]
      · simp [Bool.eq_false_iff.2 hb]

/-- C8.  `Validator.procesar` skips exactly the rows whose cleaned
identifier is empty or the literal `"nan"`; on every kept row the alias
cache resolves the identifier and the checksum runs on the resolved
identifier; the two buckets are the partition of the kept rows by
`known alias OR checksum-valid`. -/
theorem procesar_particiona_y_salta :
    (∀ cfg df, procesar cfg df =
      ((listaRegistros cfg df).filter
          (fun r => r.esAliasConocido || r.esValidaAlgoritmo),
       (listaRegistros cfg df).filter
          (fun r => !(r.esAliasConocido || r.esValidaAlgoritmo)))) ∧
    (∀ cfg fila row, registroDeFila cfg fila row = none ↔
      (limpiar_cedula row.cedula = [] ∨
       pyLower (limpiar_cedula row.cedula) = ['n', 'a', 'n'])) ∧
    (∀ cfg fila row reg, registroDeFila cfg fila row = some reg →
      reg.cedulaOriginal = limpiar_cedula row.cedula ∧
      reg.cedulaLimpia =
        ((cfg.cacheAlias.lookup (limpiar_cedula row.cedula)).getD
          (limpiar_cedula row.cedula)) ∧
      reg.esAliasConocido =
        ((cfg.cacheAlias.lookup (limpiar_cedula row.cedula)).isSome) ∧
      reg.esValidaAlgoritmo = validar_cedula_ecuador reg.cedulaLimpia) := by
  refine ⟨fun cfg df => procesarAux_particiona cfg df 0, ?_, ?_⟩
  · intro cfg fila row
    unfold registroDeFila
    by_cases hskip : (limpiar_cedula row.cedula = [] ||
        pyLower (limpiar_cedula row.cedula) = ['n', 'a', 'n']) = true
    · rw [if_pos hskip]
      simpa [Bool.or_eq_true, decide_eq_true_eq] using hskip
    · rw [if_neg hskip]
      constructor
      · intro h; exact absurd h (by simp)
      · intro h
        exact absurd (by simpa [Bool.or_eq_true, decide_eq_true_eq] using h) hskip
  · intro cfg fila row reg h
    unfold registroDeFila at h
    by_cases hskip : (limpiar_cedula row.cedula = [] ||
        pyLower (limpiar_cedula row.cedula) = ['n', 'a', 'n']) = true
    · rw [if_pos hskip] at h; exact absurd h (by simp)
    · rw [if_neg hskip] at h
      injection h with h
      subst h
      exact ⟨rfl, rfl, rfl, rfl⟩

/-- A one-row configuration for the witness of C8: no aliases, no
mapped activities, an open course. -/
def cfgC8 : ConfigValidador := ⟨⟨7, none⟩, [], [], [], [], 0⟩

/-- The single spreadsheet row of the C8 witness: a checksum-valid
identifier and nothing else. -/
def rowC8 : FilaExcel := ⟨some "1710034065".toList, none, none, none, none, none, []⟩

/-- The record `registroDeFila` produces for `rowC8`. -/
def regC8 : RegistroImportado :=
  ⟨2, "1710034065".toList, "1710034065".toList, "SIN NOMBRE".toList, [],
    "nan".toList, [], 0, .NO_REALIZO, [], false, true, true⟩

/-- The witness of C8: the concrete row is kept, its identifier is
resolved through the (empty) alias cache, and the checksum flag is the
checksum of the resolved identifier. -/
theorem procesar_particiona_y_salta_witness :
    regC8.cedulaOriginal = limpiar_cedula rowC8.cedula ∧
    regC8.cedulaLimpia =
      ((cfgC8.cacheAlias.lookup (limpiar_cedula rowC8.cedula)).getD
        (limpiar_cedula rowC8.cedula)) ∧
    regC8.esAliasConocido =
      ((cfgC8.cacheAlias.lookup (limpiar_cedula rowC8.cedula)).isSome) ∧
    regC8.esValidaAlgoritmo = validar_cedula_ecuador regC8.cedulaLimpia :=
  procesar_particiona_y_salta.2.2 cfgC8 2 rowC8 regC8 (by decide)

/-- A cell whose stripped text is the literal string `"None"`. -/
def esCeldaNoneLiteral (raw : Option (List Char)) : Bool :=
  match raw with
  | none => false
  | some s => pyStrip s = ['N', 'o', 'n', 'e']

theorem limpiar_nota_none_literal (s : List Char)
    (h : pyStrip s = ['N', 'o', 'n', 'e']) : limpiar_nota (some s) = 0 := by
  simp only [limpiar_nota, h]
  decide

theorem celdaNoVacia_none_literal (s : List Char)
    (h : pyStrip s = ['N', 'o', 'n', 'e']) : celdaNoVacia (some s) = true := by
  simp only [celdaNoVacia, h]
  decide

theorem foldl_pasoNotas_flag_false (cfg : ConfigValidador) (row : FilaExcel)
    (l : List (List Char × List Char))
    (acc : List EntradaNota × List DetalleCalificacion × Bool)
    (h : acc.2.2 = false) : (l.foldl (pasoNotas cfg row) acc).2.2 = false := by
  induction l generalizing acc with
  | nil => exact h
  | cons par resto ih =>
    rw [List.foldl_cons]
    exact ih _ (by simp [pasoNotas, h])

theorem foldl_pasoNotas_flag_true (cfg : ConfigValidador) (row : FilaExcel)
    (l : List (List Char × List Char))
    (acc : List EntradaNota × List DetalleCalificacion × Bool)
    (hall : ∀ par ∈ l, celdaNoVacia ((row.celdas.lookup par.1).getD none) = false)
    (h : acc.2.2 = true) : (l.foldl (pasoNotas cfg row) acc).2.2 = true := by
  induction l generalizing acc with
  | nil => exact h
  | cons par resto ih =>
    rw [List.foldl_cons]
    exact ih _ (fun p hp => hall p (List.mem_cons_of_mem par hp))
      (by simp [pasoNotas, h, hall par (List.mem_cons_self par resto)])

theorem foldl_pasoNotas_puntajes (cfg : ConfigValidador) (row : FilaExcel)
    (l : List (List Char × List Char))
    (acc : List EntradaNota × List DetalleCalificacion × Bool)
    (hall : ∀ par ∈ l, limpiar_nota ((row.celdas.lookup par.1).getD none) = 0)
    (hacc : ∀ e ∈ acc.1, e.puntaje = 0) :
    ∀ e ∈ (l.foldl (pasoNotas cfg row) acc).1, e.puntaje = 0 := by
  induction l generalizing acc with
  | nil => exact hacc
  | cons par resto ih =>
    rw [List.foldl_cons]
    refine ih _ (fun p hp => hall p (List.mem_cons_of_mem par hp)) ?_
    intro e he
    simp only [pasoNotas, List.mem_append, List.mem_singleton] at he
    rcases he with he | he
    · exact hacc e he
    · rw [he]
      exact hall par (List.mem_cons_self par resto)

theorem calcular_nota_ponderada_ceros (l : List EntradaNota)
    (h : ∀ e ∈ l, e.puntaje = 0) : calcular_nota_ponderada l = 0 := by
  unfold calcular_nota_ponderada
  simp only [foldl_qadd_contribuciones]
  have hsum : (l.map (fun e => e.puntaje / 10 * e.peso)).sum = 0 := by
    apply List.sum_eq_zero
    intro x hx
    obtain ⟨e, he, hex⟩ := List.mem_map.1 hx
    rw [← hex, h e he]
    ring
  rw [hsum, add_zero]
  decide

/-- C10.  The blank-cell sentinel set of the withdrawal signal is
strictly smaller than the score cleaner's: a cell stripping to the
literal `"None"` cleans to score `0.0` yet counts as non-blank, so an
all-`"None"` row gets weighted average `0` with `all_blank = false` and
its status is resolved without the withdrawal flag — `EN CURSO` for an
open course with a positive threshold — whereas a row of empty, `"-"`,
`"nan"` or NaN cells has `all_blank = true` and is resolved as
`NO REALIZO`. -/
theorem sentinela_none_no_es_retiro :
    (∀ s, pyStrip s = ['N', 'o', 'n', 'e'] →
      limpiar_nota (some s) = 0 ∧ celdaNoVacia (some s) = true) ∧
    (∀ cfg row, cfg.mapaActividades ≠ [] →
      (∀ par ∈ cfg.mapaActividades,
        esCeldaNoneLiteral ((row.celdas.lookup par.1).getD none) = true) →
      (procesarNotasFila cfg row).1 = 0 ∧
      (procesarNotasFila cfg row).2.2.2 = false ∧
      (procesarNotasFila cfg row).2.1
        = determinarEstadoNum 0 cfg.curso false cfg.hoy) ∧
    (∀ cfg row,
      (∀ par ∈ cfg.mapaActividades,
        celdaNoVacia ((row.celdas.lookup par.1).getD none) = false) →
      (procesarNotasFila cfg row).2.2.2 = true ∧
      (procesarNotasFila cfg row).2.1 = Estado.NO_REALIZO) ∧
    (∀ (c : Curso) (hoy : ℤ), 0 < c.notaAprobacion →
      (c.fechaFinal = none ∨ ∃ f, c.fechaFinal = some f ∧ hoy ≤ f) →
      determinarEstadoNum 0 c false hoy = Estado.EN_CURSO) := by
  have hnone : ∀ raw, esCeldaNoneLiteral raw = true →
      ∃ s, raw = some s ∧ pyStrip s = ['N', 'o', 'n', 'e'] := by
    intro raw h
    cases raw with
    | none => exact absurd h (by simp [esCeldaNoneLiteral])
    | some s =>
      exact ⟨s, rfl, by simpa [esCeldaNoneLiteral] using h⟩
  refine ⟨fun s hs => ⟨limpiar_nota_none_literal s hs, celdaNoVacia_none_literal s hs⟩,
    ?_, ?_, ?_⟩
  · intro cfg row hne hall
    have hflag : (cfg.mapaActividades.foldl (pasoNotas cfg row) ([], [], true)).2.2 = false := by
      cases hma : cfg.mapaActividades with
      | nil => exact absurd hma hne
      | cons par resto =>
        rw [List.foldl_cons]
        apply foldl_pasoNotas_flag_false
        have hp : par ∈ cfg.mapaActividades := by
          rw [hma]; exact List.mem_cons_self par resto
        obtain ⟨s, hs, hstrip⟩ := hnone _ (hall par hp)
        simp [pasoNotas, hs, celdaNoVacia_none_literal s hstrip]
    have hprom : calcular_nota_ponderada
        (cfg.mapaActividades.foldl (pasoNotas cfg row) ([], [], true)).1 = 0 := by
      apply calcular_nota_ponderada_ceros
      apply foldl_pasoNotas_puntajes
      · intro par hpar
        obtain ⟨s, hs, hstrip⟩ := hnone _ (hall par hpar)
        rw [hs]
        exact limpiar_nota_none_literal s hstrip
      · intro e he
        exact absurd he (List.not_mem_nil e)
    refine ⟨?_, ?_, ?_⟩
    · show calcular_nota_ponderada _ = 0
      exact hprom
    · exact hflag
    · show determinarEstadoNum (calcular_nota_ponderada _) cfg.curso
        (cfg.mapaActividades.foldl (pasoNotas cfg row) ([], [], true)).2.2 cfg.hoy
        = determinarEstadoNum 0 cfg.curso false cfg.hoy
      rw [hprom, hflag]
  · intro cfg row hall
    have hflag : (cfg.mapaActividades.foldl (pasoNotas cfg row) ([], [], true)).2.2 = true :=
      foldl_pasoNotas_flag_true cfg row _ _ hall rfl
    refine ⟨hflag, ?_⟩
    show determinarEstadoNum (calcular_nota_ponderada _) cfg.curso
      (cfg.mapaActividades.foldl (pasoNotas cfg row) ([], [], true)).2.2 cfg.hoy
      = Estado.NO_REALIZO
    rw [hflag]
    simp [determinarEstadoNum]
  · intro c hoy hpos hopen
    unfold determinarEstadoNum
    rw [if_neg (by simp)]
    rw [if_neg (by exact not_le.2 hpos)]
    rcases hopen with hnone' | ⟨f, hf, hle⟩
    · rw [hnone']
    · rw [hf]
      simp only [not_lt.2 hle, if_false]

/-- Configuration of the C10 witness: one mapped activity at full
weight, an open course with threshold 7. -/
def cfgC10 : ConfigValidador :=
  ⟨⟨7, none⟩, [], [("A".toList, "u1".toList)], [("u1".toList, 100)], [], 0⟩

/-- The C10 witness row whose only activity cell is the literal string
`" None "`. -/
def rowC10 : FilaExcel :=
  ⟨none, none, none, none, none, none, [("A".toList, some " None ".toList)]⟩

/-- The C10 witness row whose only activity cell is `"-"`. -/
def rowC10v : FilaExcel :=
  ⟨none, none, none, none, none, none, [("A".toList, some "-".toList)]⟩

/-- The witness of C10: on the concrete one-activity sheet, the
`" None "` cell cleans to score 0 but counts as non-blank, the
all-`"None"` row resolves without the withdrawal flag to `EN CURSO`,
and the `"-"` row is flagged as a withdrawal and resolves to
`NO REALIZO`. -/
theorem sentinela_none_no_es_retiro_witness :
    limpiar_nota (some " None ".toList) = 0 ∧
    celdaNoVacia (some " None ".toList) = true ∧
    (procesarNotasFila cfgC10 rowC10).1 = 0 ∧
    (procesarNotasFila cfgC10 rowC10).2.2.2 = false ∧
    (procesarNotasFila cfgC10 rowC10).2.1
      = determinarEstadoNum 0 cfgC10.curso false cfgC10.hoy ∧
    (procesarNotasFila cfgC10 rowC10v).2.2.2 = true ∧
    (procesarNotasFila cfgC10 rowC10v).2.1 = Estado.NO_REALIZO ∧
    determinarEstadoNum 0 (⟨7, none⟩ : Curso) false 0 = Estado.EN_CURSO :=
  ⟨(sentinela_none_no_es_retiro.1 " None ".toList (by decide)).1,
   (sentinela_none_no_es_retiro.1 " None ".toList (by decide)).2,
   (sentinela_none_no_es_retiro.2.1 cfgC10 rowC10 (by decide) (by decide)).1,
   (sentinela_none_no_es_retiro.2.1 cfgC10 rowC10 (by decide) (by decide)).2.1,
   (sentinela_none_no_es_retiro.2.1 cfgC10 rowC10 (by decide) (by decide)).2.2,
   (sentinela_none_no_es_retiro.2.2.1 cfgC10 rowC10v (by decide)).1,
   (sentinela_none_no_es_retiro.2.2.1 cfgC10 rowC10v (by decide)).2,
   sentinela_none_no_es_retiro.2.2.2 ⟨7, none⟩ 0 (by decide) (Or.inl rfl)⟩

theorem buscarPersona_crear_isSome (st : ServicioBD) (ced nom : List Char) (cid : ℕ) :
    (buscarPersonaPorCedula (crearPersona st ced nom cid) ced).isSome = true := by
  apply List.find?_isSome.2
  exact ⟨⟨st.nextPersonaId, ced, nom, cid⟩, by simp [crearPersona], by simp⟩

theorem buscarMatricula_crear (st : ServicioBD) (pid cid cenid : ℕ) (nota : ℚ)
    (e : Estado) :
    buscarMatricula (crearMatricula st pid cid cenid nota e) pid cid
      = some ⟨st.nextMatriculaId, pid, cid, cenid, nota, e⟩ := by
  unfold buscarMatricula crearMatricula
  rw [List.find?_cons_of_pos _ (by simp)]

theorem cuerpoFilaResto_cuenta (falla : PuntoFallo → Bool) (cursoId : ℕ)
    (curso : Curso) (hoy : ℤ) (reg : RegistroImportado) (centro : Centro)
    (est : Persona) (res : ResultadoProceso) (st : ServicioBD) :
    (∃ res' st', cuerpoFilaResto falla cursoId curso hoy reg centro est res st
        = .ok (res', st') ∧
      res'.errores = res.errores ∧
      res'.registrosOmitidos = res.registrosOmitidos ∧
      res'.matriculasNuevas + res'.matriculasActualizadas
        = res.matriculasNuevas + res.matriculasActualizadas + 1) ∨
    (∃ res' st' msg, cuerpoFilaResto falla cursoId curso hoy reg centro est res st
        = .error (res', st', msg) ∧
      res'.errores = res.errores ∧
      res'.registrosOmitidos = res.registrosOmitidos ∧
      res'.matriculasNuevas = res.matriculasNuevas ∧
      res'.matriculasActualizadas = res.matriculasActualizadas) := by
  simp only [cuerpoFilaResto]
  generalize (if reg.cedulaOriginal ≠ reg.cedulaLimpia then
      registrarAlias st est.id reg.cedulaOriginal else st) = st1
  cases hlk : st1.cacheMatriculas.lookup est.id with
  | none =>
    simp only [hlk]
    by_cases h1 : falla PuntoFallo.crearMatricula
    · rw [if_pos h1]
      exact Or.inr ⟨res, st1, _, rfl, rfl, rfl, rfl, rfl⟩
    · rw [if_neg h1]
      by_cases h2 : falla PuntoFallo.buscarMatricula
      · rw [if_pos h2]
        exact Or.inr ⟨res, _, _, rfl, rfl, rfl, rfl, rfl⟩
      · rw [if_neg h2, buscarMatricula_crear]
        exact Or.inl ⟨_, _, rfl, rfl, rfl, by dsimp only; omega⟩
  | some m =>
    simp only [hlk]
    by_cases h1 : falla PuntoFallo.actualizarMatricula
    · rw [if_pos h1]
      exact Or.inr ⟨res, st1, _, rfl, rfl, rfl, rfl, rfl⟩
    · rw [if_neg h1]
      exact Or.inl ⟨_, _, rfl, rfl, rfl, by dsimp only; omega⟩


theorem cuerpoFila_cuenta (falla : PuntoFallo → Bool) (cursoId : ℕ)
    (curso : Curso) (hoy : ℤ) (reg : RegistroImportado)
    (res : ResultadoProceso) (st : ServicioBD) :
    (∃ res' st', cuerpoFila falla cursoId curso hoy reg res st = .ok (res', st') ∧
      ((res'.errores = res.errores ∧
        res'.registrosOmitidos = res.registrosOmitidos ∧
        res'.matriculasNuevas + res'.matriculasActualizadas
          = res.matriculasNuevas + res.matriculasActualizadas + 1) ∨
       (res'.errores = res.errores ++ [.centroNoExiste reg.filaExcel reg.centroNombre] ∧
        res'.registrosOmitidos = res.registrosOmitidos + 1 ∧
        res'.matriculasNuevas = res.matriculasNuevas ∧
        res'.matriculasActualizadas = res.matriculasActualizadas))) ∨
    (∃ res' st' msg, cuerpoFila falla cursoId curso hoy reg res st = .error (res', st', msg) ∧
      res'.errores = res.errores ∧
      res'.registrosOmitidos = res.registrosOmitidos ∧
      res'.matriculasNuevas = res.matriculasNuevas ∧
      res'.matriculasActualizadas = res.matriculasActualizadas) := by
  unfold cuerpoFila
  cases hc : st.cacheCentros.lookup reg.centroNombre with
  | none =>
    exact Or.inl ⟨_, _, rfl, Or.inr ⟨rfl, rfl, rfl, rfl⟩⟩
  | some centro =>
    dsimp only
    cases he : st.cacheEstudiantes.lookup reg.cedulaLimpia with
    | none =>
      dsimp only
      by_cases h1 : falla PuntoFallo.crearPersona
      · rw [if_pos h1]
        exact Or.inr ⟨res, st, _, rfl, rfl, rfl, rfl, rfl⟩
      · rw [if_neg h1]
        by_cases h2 : falla PuntoFallo.buscarPersona
        · rw [if_pos h2]
          exact Or.inr ⟨res, _, _, rfl, rfl, rfl, rfl, rfl⟩
        · rw [if_neg h2]
          cases hf : buscarPersonaPorCedula
              (crearPersona st reg.cedulaLimpia reg.nombreLimpio centro.id)
              reg.cedulaLimpia with
          | none =>
            exact absurd (buscarPersona_crear_isSome st reg.cedulaLimpia
              reg.nombreLimpio centro.id) (by rw [hf]; simp)
          | some est =>
            dsimp only
            rcases cuerpoFilaResto_cuenta falla cursoId curso hoy reg centro est
                { res with nuevosEstudiantes := res.nuevosEstudiantes + 1 }
                { crearPersona st reg.cedulaLimpia reg.nombreLimpio centro.id with
                  cacheEstudiantes := insertarAssoc
                    (crearPersona st reg.cedulaLimpia reg.nombreLimpio centro.id).cacheEstudiantes
                    reg.cedulaLimpia est } with
              ⟨res', st', hok, ha, hb, hcnt⟩ | ⟨res', st', msg, herr, ha, hb, hc2, hd⟩
            · exact Or.inl ⟨res', st', hok, Or.inl ⟨ha, hb, by revert hcnt; dsimp only; omega⟩⟩
            · exact Or.inr ⟨res', st', msg, herr, ha, hb,
                by revert hc2; dsimp only; omega, by revert hd; dsimp only; omega⟩
    | some est =>
      dsimp only
      by_cases hdif : est.centroId ≠ centro.id
      · rw [if_pos hdif]
        by_cases h1 : falla PuntoFallo.actualizarPersona
        · rw [if_pos h1]
          exact Or.inr ⟨res, st, _, rfl, rfl, rfl, rfl, rfl⟩
        · rw [if_neg h1]
          rcases cuerpoFilaResto_cuenta falla cursoId curso hoy reg centro
              { est with centroId := centro.id } res
              (actualizarPersonaCentro st est.id centro.id) with
            ⟨res', st', hok, ha, hb, hcnt⟩ | ⟨res', st', msg, herr, ha, hb, hc2, hd⟩
          · exact Or.inl ⟨res', st', hok, Or.inl ⟨ha, hb, hcnt⟩⟩
          · exact Or.inr ⟨res', st', msg, herr, ha, hb, hc2, hd⟩
      · rw [if_neg hdif]
        rcases cuerpoFilaResto_cuenta falla cursoId curso hoy reg centro est res st with
          ⟨res', st', hok, ha, hb, hcnt⟩ | ⟨res', st', msg, herr, ha, hb, hc2, hd⟩
        · exact Or.inl ⟨res', st', hok, Or.inl ⟨ha, hb, hcnt⟩⟩
        · exact Or.inr ⟨res', st', msg, herr, ha, hb, hc2, hd⟩

theorem pasoFila_cuenta (falla : PuntoFallo → Bool) (cursoId : ℕ)
    (curso : Curso) (hoy : ℤ) (res : ResultadoProceso) (st : ServicioBD)
    (reg : RegistroImportado) :
    ∃ notas : List NotaError,
      (pasoFila falla cursoId curso hoy res st reg).1.errores = res.errores ++ notas ∧
      (∀ e ∈ notas, esNotaOmision e = true ∧ filaDeNota e = some reg.filaExcel) ∧
      (pasoFila falla cursoId curso hoy res st reg).1.registrosOmitidos
        = res.registrosOmitidos + notas.length ∧
      (pasoFila falla cursoId curso hoy res st reg).1.matriculasNuevas
        + (pasoFila falla cursoId curso hoy res st reg).1.matriculasActualizadas
        + (pasoFila falla cursoId curso hoy res st reg).1.registrosOmitidos
        = res.matriculasNuevas + res.matriculasActualizadas
          + res.registrosOmitidos + 1 := by
  unfold pasoFila
  rcases cuerpoFila_cuenta falla cursoId curso hoy reg res st with
    ⟨res', st', hok, hcase⟩ | ⟨res', st', msg, herr, ha, hb, hc2, hd⟩
  · rw [hok]
    dsimp only
    rcases hcase with ⟨ha, hb, hcnt⟩ | ⟨ha, hb, hc2, hd⟩
    · exact ⟨[], by simp [ha], by simp, by simp [hb], by omega⟩
    · refine ⟨[.centroNoExiste reg.filaExcel reg.centroNombre], ha,
        ?_, by simp [hb], by omega⟩
      intro e he
      rw [List.mem_singleton] at he
      subst he
      exact ⟨rfl, rfl⟩
  · rw [herr]
    dsimp only
    refine ⟨[.errorBD reg.filaExcel reg.nombreLimpio msg],
      by rw [ha], ?_, by rw [hb]; simp, by omega⟩
    intro e he
    rw [List.mem_singleton] at he
    subst he
    exact ⟨rfl, rfl⟩

theorem guardarLoteAux_cuenta (falla : ℕ → PuntoFallo → Bool) (cursoId : ℕ)
    (curso : Curso) (hoy : ℤ) :
    ∀ (regs : List RegistroImportado) (i : ℕ) (res : ResultadoProceso)
      (st : ServicioBD),
      ∃ notas : List NotaError,
        (guardarLoteAux falla cursoId curso hoy i res st regs).1.errores
          = res.errores ++ notas ∧
        (∀ e ∈ notas, esNotaOmision e = true ∧
          ∃ reg ∈ regs, filaDeNota e = some reg.filaExcel) ∧
        (guardarLoteAux falla cursoId curso hoy i res st regs).1.registrosOmitidos
          = res.registrosOmitidos + notas.length ∧
        (guardarLoteAux falla cursoId curso hoy i res st regs).1.matriculasNuevas
          + (guardarLoteAux falla cursoId curso hoy i res st regs).1.matriculasActualizadas
          + (guardarLoteAux falla cursoId curso hoy i res st regs).1.registrosOmitidos
          = res.matriculasNuevas + res.matriculasActualizadas
            + res.registrosOmitidos + regs.length := by
  intro regs
  induction regs with
  | nil => exact fun i res st => ⟨[], by simp [guardarLoteAux], by simp,
      by simp [guardarLoteAux], by simp [guardarLoteAux]⟩
  | cons reg resto ih =>
    intro i res st
    rw [show guardarLoteAux falla cursoId curso hoy i res st (reg :: resto)
        = guardarLoteAux falla cursoId curso hoy (i + 1)
            (pasoFila (falla i) cursoId curso hoy res st reg).1
            (pasoFila (falla i) cursoId curso hoy res st reg).2 resto from rfl]
    obtain ⟨n1, h1e, h1m, h1o, h1c⟩ := pasoFila_cuenta (falla i) cursoId curso hoy res st reg
    obtain ⟨n2, h2e, h2m, h2o, h2c⟩ := ih (i + 1)
      (pasoFila (falla i) cursoId curso hoy res st reg).1
      (pasoFila (falla i) cursoId curso hoy res st reg).2
    refine ⟨n1 ++ n2, ?_, ?_, ?_, ?_⟩
    · rw [h2e, h1e, List.append_assoc]
    · intro e he
      rcases List.mem_append.1 he with h | h
      · exact ⟨(h1m e h).1, reg, List.mem_cons_self reg resto, (h1m e h).2⟩
      · obtain ⟨hom, r, hr, hf⟩ := h2m e h
        exact ⟨hom, r, List.mem_cons_of_mem reg hr, hf⟩
    · rw [h2o, h1o, List.length_append]
      omega
    · rw [h2c, List.length_cons]
      omega

/-- C7.  When the target course does not exist, `guardar_lote` returns a
single critical error before touching any row and leaves the database
state unchanged.  When it exists, every row is processed and accounted:
a per-row exception or a failed center lookup is recorded as a note
carrying that row's number and counted in `registros_omitidos`, the
batch continues (`nuevas + actualizadas + omitidos` equals the number
of rows), and, the function being total, no per-row exception
propagates to the caller. -/
theorem guardar_lote_robusto (falla : ℕ → PuntoFallo → Bool) (hoy : ℤ)
    (st : ServicioBD) (regs : List RegistroImportado) (cursoId : ℕ) :
    (st.cursos.lookup cursoId = none →
      guardar_lote falla hoy st regs cursoId = ({ errores := [.cursoNoExiste] }, st)) ∧
    (∀ curso, st.cursos.lookup cursoId = some curso →
      (guardar_lote falla hoy st regs cursoId).1.matriculasNuevas
        + (guardar_lote falla hoy st regs cursoId).1.matriculasActualizadas
        + (guardar_lote falla hoy st regs cursoId).1.registrosOmitidos
        = regs.length ∧
      (guardar_lote falla hoy st regs cursoId).1.errores.length
        = (guardar_lote falla hoy st regs cursoId).1.registrosOmitidos ∧
      (∀ e ∈ (guardar_lote falla hoy st regs cursoId).1.errores,
        esNotaOmision e = true ∧ ∃ reg ∈ regs, filaDeNota e = some reg.filaExcel)) := by
  constructor
  · intro h
    unfold guardar_lote
    rw [h]
  · intro curso hc
    unfold guardar_lote
    rw [hc]
    obtain ⟨notas, he, hm, ho, hcnt⟩ :=
      guardarLoteAux_cuenta falla cursoId curso hoy regs 0 {} st
    refine ⟨by simpa using hcnt, ?_, ?_⟩
    · rw [he, ho]
      simp
    · intro e hee
      rw [he] at hee
      exact hm e (by simpa using hee)

/-- Oracle of the C7 witness: the third row (index 2) raises at every
DB call. -/
def fallaC7 : ℕ → PuntoFallo → Bool := fun i _ => i == 2

/-- Database state of the C7 witness: course 1 exists, one center is
cached. -/
def stC7 : ServicioBD :=
  ⟨[(1, ⟨7, none⟩)], [], [], [], [], [("QUITO".toList, ⟨5⟩)], [], [], 10, 20⟩

/-- Database state of the C7 witness with no courses at all. -/
def stC7v : ServicioBD := ⟨[], [], [], [], [], [], [], [], 10, 20⟩

/-- A committable row for the C7 witness. -/
def regC7a : RegistroImportado :=
  ⟨2, "1710034065".toList, "1710034065".toList, "ANA A".toList,
    "QUITO".toList, [], [], 8, .APROBADO, [], false, true, false⟩

/-- A row whose center does not exist, for the C7 witness. -/
def regC7b : RegistroImportado :=
  ⟨3, "0926687856".toList, "0926687856".toList, "BEN B".toList,
    "GUAYAQUIL".toList, [], [], 5, .REPROBADO, [], false, true, false⟩

/-- A row the oracle makes raise during commit, for the C7 witness. -/
def regC7c : RegistroImportado :=
  ⟨4, "1104680135".toList, "1104680135".toList, "CARLA C".toList,
    "QUITO".toList, [], [], 9, .APROBADO, [], false, true, false⟩

/-- The witness of C7: with the course missing the batch aborts on a
single critical error and the state is untouched; with the course
present, a three-row batch containing a center-lookup failure and an
exception-raising row still accounts for every row. -/
theorem guardar_lote_robusto_witness :
    (guardar_lote fallaC7 0 stC7v [regC7a] 1
      = ({ errores := [.cursoNoExiste] }, stC7v)) ∧
    ((guardar_lote fallaC7 0 stC7 [regC7a, regC7b, regC7c] 1).1.matriculasNuevas
        + (guardar_lote fallaC7 0 stC7 [regC7a, regC7b, regC7c] 1).1.matriculasActualizadas
        + (guardar_lote fallaC7 0 stC7 [regC7a, regC7b, regC7c] 1).1.registrosOmitidos
        = 3 ∧
      (guardar_lote fallaC7 0 stC7 [regC7a, regC7b, regC7c] 1).1.errores.length
        = (guardar_lote fallaC7 0 stC7 [regC7a, regC7b, regC7c] 1).1.registrosOmitidos ∧
      (∀ e ∈ (guardar_lote fallaC7 0 stC7 [regC7a, regC7b, regC7c] 1).1.errores,
        esNotaOmision e = true ∧
        ∃ reg ∈ [regC7a, regC7b, regC7c], filaDeNota e = some reg.filaExcel)) :=
  ⟨(guardar_lote_robusto fallaC7 0 stC7v [regC7a] 1).1 rfl,
   (guardar_lote_robusto fallaC7 0 stC7 [regC7a, regC7b, regC7c] 1).2 ⟨7, none⟩ rfl⟩

theorem lookup_cons_ne {β : Type} (ka k' : List Char) (va : β)
    (rest : List (List Char × β)) (h : k' ≠ ka) :
    ((ka, va) :: rest).lookup k' = rest.lookup k' := by
  rw [List.lookup_cons]
  have hb : (k' == ka) = false := by simpa [beq_iff_eq] using h
  rw [hb]

theorem lookup_insertarAssoc {β : Type} (l : List (List Char × β))
    (k k' : List Char) (v : β) :
    (insertarAssoc l k v).lookup k' = if k' = k then some v else l.lookup k' := by
  induction l with
  | nil =>
    by_cases h : k' = k
    · subst h; simp [insertarAssoc]
    · simp [insertarAssoc, lookup_cons_ne _ _ _ _ h, h]
  | cons kv rest ih =>
    obtain ⟨ka, va⟩ := kv
    simp only [insertarAssoc]
    by_cases h : ka = k
    · rw [if_pos (by simpa [beq_iff_eq] using h)]
      subst h
      by_cases h2 : k' = ka
      · subst h2; simp
      · rw [lookup_cons_ne _ _ _ _ h2, lookup_cons_ne _ _ _ _ h2, if_neg h2]
    · rw [if_neg (by simpa [beq_iff_eq] using h)]
      by_cases h2 : k' = ka
      · subst h2
        have hk : ¬ k' = k := fun hc => h (hc ▸ rfl)
        simp [hk]
      · rw [lookup_cons_ne _ _ _ _ h2, lookup_cons_ne _ _ _ _ h2, ih]

theorem length_insertarAssoc_mem {β : Type} (l : List (List Char × β))
    (k : List Char) (v : β) (h : (l.lookup k).isSome = true) :
    (insertarAssoc l k v).length = l.length := by
  induction l with
  | nil => simp at h
  | cons kv rest ih =>
    obtain ⟨ka, va⟩ := kv
    simp only [insertarAssoc]
    by_cases hk : ka = k
    · rw [if_pos (by simpa [beq_iff_eq] using hk)]
      simp
    · rw [if_neg (by simpa [beq_iff_eq] using hk)]
      simp only [List.length_cons]
      have hne : k ≠ ka := fun hc => hk hc.symm
      rw [lookup_cons_ne _ _ _ _ hne] at h
      rw [ih h]

theorem length_insertarAssoc_new {β : Type} (l : List (List Char × β))
    (k : List Char) (v : β) (h : l.lookup k = none) :
    (insertarAssoc l k v).length = l.length + 1 := by
  induction l with
  | nil => simp [insertarAssoc]
  | cons kv rest ih =>
    obtain ⟨ka, va⟩ := kv
    simp only [insertarAssoc]
    by_cases hk : ka = k
    · exfalso
      subst hk
      simp at h
    · rw [if_neg (by simpa [beq_iff_eq] using hk)]
      simp only [List.length_cons]
      have hne : k ≠ ka := fun hc => hk hc.symm
      rw [lookup_cons_ne _ _ _ _ hne] at h
      rw [ih h]

theorem deduplicarAux_cuenta :
    ∀ (regs : List RegistroImportado)
      (mapa : List (List Char × RegistroImportado)) (rep : List NotaError),
      (deduplicarAux regs mapa rep).1.length
          + List.countP esDuplicadoInterno (deduplicarAux regs mapa rep).2
        = mapa.length + List.countP esDuplicadoInterno rep + regs.length ∧
      List.countP esFusionDescarte (deduplicarAux regs mapa rep).2
        = List.countP esFusionDescarte rep := by
  intro regs
  induction regs with
  | nil => exact fun mapa rep => ⟨by simp [deduplicarAux], by simp [deduplicarAux]⟩
  | cons reg resto ih =>
    intro mapa rep
    rw [show deduplicarAux (reg :: resto) mapa rep
        = deduplicarAux resto (insertarAssoc mapa reg.cedulaLimpia reg)
            (if (mapa.lookup reg.cedulaLimpia).isSome then
              rep ++ [.duplicadoInterno reg.cedulaLimpia reg.filaExcel]
            else rep) from rfl]
    obtain ⟨ihc, ihf⟩ := ih (insertarAssoc mapa reg.cedulaLimpia reg)
      (if (mapa.lookup reg.cedulaLimpia).isSome then
        rep ++ [.duplicadoInterno reg.cedulaLimpia reg.filaExcel]
      else rep)
    by_cases hdup : (mapa.lookup reg.cedulaLimpia).isSome = true
    · rw [if_pos hdup] at ihc ihf ⊢
      constructor
      · rw [ihc, length_insertarAssoc_mem _ _ _ hdup, List.countP_append]
        simp only [List.length_cons, List.countP_cons, List.countP_nil,
          esDuplicadoInterno, if_pos, List.length_cons]
        omega
      · rw [ihf, List.countP_append]
        simp [esFusionDescarte, List.countP_cons]
    · rw [if_neg hdup] at ihc ihf ⊢
      constructor
      · rw [ihc, length_insertarAssoc_new _ _ _
          (Option.not_isSome_iff_eq_none.1 hdup)]
        simp only [List.length_cons]
        omega
      · exact ihf

theorem resolverUno_aceptada (mA mV : List (List Char × RegistroImportado))
    (cE : List (List Char × Persona)) (reg : RegistroImportado) :
    ∀ (ds : List Decision) (reg' : RegistroImportado),
      resolverUno mA mV cE reg ds = some (.aceptada reg') →
      mA.lookup reg'.cedulaLimpia = none := by
  intro ds
  induction ds with
  | nil => intro reg' h; exact absurd h (by simp [resolverUno])
  | cons d rest ih =>
    intro reg' h
    cases d with
    | cancelar conf =>
      simp only [resolverUno] at h
      by_cases hc : conf
      · rw [if_pos hc] at h
        exact absurd (Option.some.inj h) (by simp)
      · rw [if_neg hc] at h
        exact ih reg' h
    | ingresar ced el fus =>
      simp only [resolverUno] at h
      by_cases hval : validar_cedula_ecuador (pyStrip ced) = true
      case neg =>
        rw [if_pos (by simp [Bool.eq_false_iff.2 hval])] at h
        exact ih reg' h
      case pos =>
        rw [if_neg (by simp [hval])] at h
        by_cases hacc : (mA.lookup (pyStrip ced)).isSome = true
        · rw [if_pos hacc] at h
          exact ih reg' h
        · rw [if_neg hacc] at h
          have hnone : mA.lookup (pyStrip ced) = none :=
            Option.not_isSome_iff_eq_none.1 hacc
          have haccept : ∀ (hy : some (ResolucionFila.aceptada
              { reg with cedulaLimpia := pyStrip ced }) = some (.aceptada reg')),
              mA.lookup reg'.cedulaLimpia = none := by
            intro hy
            have h4 := ResolucionFila.aceptada.inj (Option.some.inj hy)
            rw [← h4]
            exact hnone
          cases hv : mV.lookup (pyStrip ced) with
          | some dup =>
            rw [hv] at h
            cases el with
            | mantenerExistente => exact absurd (Option.some.inj h) (by simp)
            | cancelarConflicto => exact ih reg' h
            | sobrescribir =>
              by_cases hbd : pasaValidacionBD cE (pyStrip ced) fus = true
              · rw [if_neg (by simp [hbd])] at h
                exact haccept h
              · rw [if_pos (by simp [Bool.eq_false_iff.2 hbd])] at h
                exact ih reg' h
          | none =>
            rw [hv] at h
            by_cases hbd : pasaValidacionBD cE (pyStrip ced) fus = true
            · rw [if_neg (by simp [hbd])] at h
              exact haccept h
            · rw [if_pos (by simp [Bool.eq_false_iff.2 hbd])] at h
              exact ih reg' h

theorem resolverRevisiones_cuenta (decisiones : ℕ → List Decision)
    (mV : List (List Char × RegistroImportado)) (cE : List (List Char × Persona)) :
    ∀ (regs : List RegistroImportado) (i : ℕ) (acc rev : EstadoRevision),
      resolverRevisiones decisiones mV cE i regs acc = some rev →
      rev.aceptados.length + rev.listaOmitidos.length
          + List.countP esFusionDescarte rev.reporte
        = acc.aceptados.length + acc.listaOmitidos.length
          + List.countP esFusionDescarte acc.reporte + regs.length ∧
      List.countP esDuplicadoInterno rev.reporte
        = List.countP esDuplicadoInterno acc.reporte ∧
      ∃ nuevos : List RegistroImportado,
        rev.aceptados = acc.aceptados ++ nuevos ∧
        (∀ reg ∈ nuevos, acc.mapaAceptados.lookup reg.cedulaLimpia = none) ∧
        (nuevos.map (fun r => r.cedulaLimpia)).Nodup := by
  intro regs
  induction regs with
  | nil =>
    intro i acc rev h
    simp only [resolverRevisiones] at h
    have har : acc = rev := Option.some.inj h
    subst har
    refine ⟨rfl, rfl, [], (List.append_nil _).symm, ?_, ?_⟩
    · intro r hr
      exact absurd hr (List.not_mem_nil r)
    · rw [List.map_nil]
      exact List.nodup_nil
  | cons reg resto ih =>
    intro i acc rev h
    simp only [resolverRevisiones] at h
    cases hres : resolverUno acc.mapaAceptados mV cE reg (decisiones i) with
    | none => rw [hres] at h; exact absurd h (by simp)
    | some out =>
      rw [hres] at h
      cases out with
      | aceptada reg' =>
        dsimp only at h
        obtain ⟨hc, hd, nuevos, hn, hmem, hnd⟩ := ih (i + 1) _ rev h
        dsimp only at hc hd hn hmem
        refine ⟨?_, ?_, reg' :: nuevos, ?_, ?_, ?_⟩
        · simp only [List.length_append, List.length_singleton,
            List.length_cons, List.length_nil] at hc ⊢
          omega
        · exact hd
        · rw [hn, List.append_assoc, List.singleton_append]
        · intro r hr
          rcases List.mem_cons.1 hr with hr | hr
          · subst hr
            exact resolverUno_aceptada acc.mapaAceptados mV cE reg (decisiones i) r hres
          · have hm := hmem r hr
            rw [lookup_insertarAssoc] at hm
            by_cases he : r.cedulaLimpia = reg'.cedulaLimpia
            · rw [if_pos he] at hm; exact absurd hm (by simp)
            · rwa [if_neg he] at hm
        · rw [List.map_cons, List.nodup_cons]
          refine ⟨?_, hnd⟩
          intro hmemced
          obtain ⟨r, hr, hrc⟩ := List.mem_map.1 hmemced
          have hm := hmem r hr
          rw [lookup_insertarAssoc, if_pos hrc] at hm
          exact absurd hm (by simp)
      | omitida =>
        dsimp only at h
        obtain ⟨hc, hd, nuevos, hn, hmem, hnd⟩ := ih (i + 1) _ rev h
        dsimp only at hc hd hn hmem
        refine ⟨?_, ?_, nuevos, hn, hmem, hnd⟩
        · have h0 : List.countP esFusionDescarte
              [NotaError.omitidoUsuario reg.nombreLimpio reg.cedulaOriginal] = 0 := by
            simp [esFusionDescarte]
          simp only [List.length_append, List.length_singleton, List.length_cons,
            List.length_nil, List.countP_append, h0] at hc ⊢
          omega
        · have h0 : List.countP esDuplicadoInterno
              [NotaError.omitidoUsuario reg.nombreLimpio reg.cedulaOriginal] = 0 := by
            simp [esDuplicadoInterno]
          simp only [List.countP_append, h0] at hd
          omega
      | descartadaPorExistente nom =>
        dsimp only at h
        obtain ⟨hc, hd, nuevos, hn, hmem, hnd⟩ := ih (i + 1) _ rev h
        dsimp only at hc hd hn hmem
        refine ⟨?_, ?_, nuevos, hn, hmem, hnd⟩
        · have h1 : List.countP esFusionDescarte
              [NotaError.fusionDescarte reg.nombreLimpio nom] = 1 := by
            simp [esFusionDescarte]
          simp only [List.length_cons, List.length_nil, List.countP_append, h1] at hc ⊢
          omega
        · have h0 : List.countP esDuplicadoInterno
              [NotaError.fusionDescarte reg.nombreLimpio nom] = 0 := by
            simp [esDuplicadoInterno]
          simp only [List.countP_append, h0] at hd
          omega

theorem foldl_insertarAssoc_length :
    ∀ (aceptados : List RegistroImportado)
      (mapa : List (List Char × RegistroImportado)),
      (∀ reg ∈ aceptados, mapa.lookup reg.cedulaLimpia = none) →
      (aceptados.map (fun r => r.cedulaLimpia)).Nodup →
      (aceptados.foldl (fun m reg => insertarAssoc m reg.cedulaLimpia reg) mapa).length
        = mapa.length + aceptados.length := by
  intro aceptados
  induction aceptados with
  | nil => intro mapa _ _; simp
  | cons reg resto ih =>
    intro mapa hmem hnd
    rw [List.foldl_cons]
    rw [List.map_cons, List.nodup_cons] at hnd
    have hml : ∀ r ∈ resto,
        (insertarAssoc mapa reg.cedulaLimpia reg).lookup r.cedulaLimpia = none := by
      intro r hr
      rw [lookup_insertarAssoc]
      rw [if_neg (fun hc => hnd.1 (List.mem_map.2 ⟨r, hr, hc⟩))]
      exact hmem r (List.mem_cons_of_mem reg hr)
    rw [ih _ hml hnd.2,
      length_insertarAssoc_new _ _ _ (hmem reg (List.mem_cons_self reg resto))]
    simp only [List.length_cons]
    omega

theorem esNotaOmision_no_es_dup_ni_fusion (e : NotaError)
    (h : esNotaOmision e = true) :
    esDuplicadoInterno e = false ∧ esFusionDescarte e = false := by
  cases e <;> simp_all [esNotaOmision, esDuplicadoInterno, esFusionDescarte]

/-- C6, amended.  The reporting identity holds once the three kinds of
rows the window drops without counting them as omissions are added
back: internally deduplicated rows and conflict resolutions that keep
the existing record are logged (as notes) but not counted, so
`total_rows = accepted + omitted + duplicates_logged +
keep_existing_discards`, provided no interactively corrected record
resolves to a cédula already accepted from the valid bucket (such a
record silently replaces the valid one). -/
theorem informe_importacion_cuenta_total (falla : ℕ → PuntoFallo → Bool)
    (hoy : ℤ) (decisiones : ℕ → List Decision) (st : ServicioBD)
    (validos revision : List RegistroImportado) (cursoId : ℕ)
    (rev : EstadoRevision) (out : ResultadoProceso × ServicioBD)
    (hcurso : (st.cursos.lookup cursoId).isSome = true)
    (hrev : faseResolucion decisiones (deduplicar validos).1
      st.cacheEstudiantes revision = some rev)
    (hnov : ∀ reg ∈ rev.aceptados,
      (deduplicar validos).1.lookup reg.cedulaLimpia = none)
    (hout : alTerminarAnalisis falla hoy decisiones st validos revision cursoId
      = some out) :
    validos.length + revision.length
      = out.1.matriculasNuevas + out.1.matriculasActualizadas
        + out.1.registrosOmitidos
        + List.countP esDuplicadoInterno out.1.errores
        + List.countP esFusionDescarte out.1.errores := by
  obtain ⟨curso, hcur⟩ := Option.isSome_iff_exists.1 hcurso
  -- unfold the pipeline around the hypotheses
  simp only [alTerminarAnalisis] at hout
  by_cases hempty : validos = [] ∧ revision = []
  · rw [if_pos hempty] at hout
    exact absurd hout (by simp)
  rw [if_neg hempty] at hout
  rw [hrev] at hout
  dsimp only at hout
  by_cases hlf : ((rev.aceptados.foldl
      (fun m reg => insertarAssoc m reg.cedulaLimpia reg)
      (deduplicar validos).1).map Prod.snd) = []
  · rw [if_pos hlf] at hout
    exact absurd hout (by simp)
  rw [if_neg hlf] at hout
  have hout2 := (Option.some.inj hout).symm
  -- facts about each phase
  obtain ⟨hded, hdedf⟩ := deduplicarAux_cuenta validos [] []
  -- resolution phase facts
  have hresol : rev.aceptados.length + rev.listaOmitidos.length
        + List.countP esFusionDescarte rev.reporte = revision.length ∧
      List.countP esDuplicadoInterno rev.reporte = 0 ∧
      (rev.aceptados.map (fun r => r.cedulaLimpia)).Nodup := by
    unfold faseResolucion at hrev
    by_cases hrne : revision ≠ []
    · rw [if_pos hrne] at hrev
      obtain ⟨hc, hd, nuevos, hn, _, hnd⟩ :=
        resolverRevisiones_cuenta decisiones (deduplicar validos).1
          st.cacheEstudiantes revision 0 {} rev hrev
      simp only [List.nil_append] at hn
      refine ⟨by simpa using hc, by simpa using hd, ?_⟩
      rw [hn]
      exact hnd
    · rw [if_neg hrne] at hrev
      have : ({} : EstadoRevision) = rev := Option.some.inj hrev
      rw [← this]
      push_neg at hrne
      simp [hrne]
  -- save phase facts
  have hgl : guardar_lote falla hoy st
      ((rev.aceptados.foldl (fun m reg => insertarAssoc m reg.cedulaLimpia reg)
        (deduplicar validos).1).map Prod.snd) cursoId
      = guardarLoteAux falla cursoId curso hoy 0 {} st
        ((rev.aceptados.foldl (fun m reg => insertarAssoc m reg.cedulaLimpia reg)
          (deduplicar validos).1).map Prod.snd) := by
    unfold guardar_lote
    rw [hcur]
  obtain ⟨notas, hge, hgm, hgo, hgc⟩ := guardarLoteAux_cuenta falla cursoId curso hoy
    ((rev.aceptados.foldl (fun m reg => insertarAssoc m reg.cedulaLimpia reg)
      (deduplicar validos).1).map Prod.snd) 0 {} st
  -- the merged list's length
  have hmerge : ((rev.aceptados.foldl
        (fun m reg => insertarAssoc m reg.cedulaLimpia reg)
        (deduplicar validos).1).map Prod.snd).length
      = (deduplicar validos).1.length + rev.aceptados.length := by
    rw [List.length_map]
    exact foldl_insertarAssoc_length rev.aceptados (deduplicar validos).1
      hnov hresol.2.2
  -- the saved batch's error notes carry no duplicate or fusion notes
  have hnotasd : List.countP esDuplicadoInterno notas = 0 := by
    rw [List.countP_eq_zero]
    intro e he
    have hom := hgm e he
    simp [(esNotaOmision_no_es_dup_ni_fusion e hom.1).1]
  have hnotasf : List.countP esFusionDescarte notas = 0 := by
    rw [List.countP_eq_zero]
    intro e he
    have hom := hgm e he
    simp [(esNotaOmision_no_es_dup_ni_fusion e hom.1).2]
  -- read the final report off the pipeline output
  rw [hout2]
  dsimp only
  rw [hgl, hge]
  dsimp only
  have hdd : deduplicar validos = deduplicarAux validos [] [] := rfl
  simp only [hdd] at *
  simp only [List.nil_append, List.countP_append, List.countP_nil,
    List.length_nil, Nat.zero_add, Nat.add_zero] at hded hdedf hgc hresol ⊢
  rw [hnotasd, hnotasf, hresol.2.1, hdedf]
  have hr1 := hresol.1
  omega

/-- Oracle of the C6 artifacts: no DB call raises. -/
def fallaC6 : ℕ → PuntoFallo → Bool := fun _ _ => false

/-- Decision scripts of the C6 artifacts: no dialogs are needed for the
counterexample; for the witness every revision row is omitted on the
first dialog. -/
def decC6 : ℕ → List Decision := fun _ => []

/-- Decision script of the C6 witness. -/
def decC6w : ℕ → List Decision := fun _ => [Decision.cancelar true]

/-- Service state of the C6 artifacts: course 1 exists, one cached
center. -/
def stC6 : ServicioBD :=
  ⟨[(1, ⟨7, none⟩)], [], [], [], [], [("QUITO".toList, ⟨5⟩)], [], [], 10, 20⟩

/-- First valid record of the C6 counterexample. -/
def regC6a : RegistroImportado :=
  ⟨2, "1710034065".toList, "1710034065".toList, "ANA A".toList,
    "QUITO".toList, [], [], 8, .APROBADO, [], false, true, false⟩

/-- Second valid record of the C6 counterexample: same cédula as the
first (an internal duplicate). -/
def regC6b : RegistroImportado :=
  ⟨3, "1710034065".toList, "1710034065".toList, "BEA B".toList,
    "QUITO".toList, [], [], 9, .APROBADO, [], false, true, false⟩

/-- C6, counterexample.  A batch of two examined rows that share a
cédula: the window deduplicates them, saves a single enrollment, and
reports `matriculas_nuevas = 1` with `registros_omitidos = 0`, so
`total_rows = 2 ≠ 1 + 0` — the dropped duplicate is logged but never
counted in the final tallies. -/
theorem informe_importacion_pierde_duplicados :
    ((alTerminarAnalisis fallaC6 0 decC6 stC6 [regC6a, regC6b] [] 1).map
      (fun out => (out.1.matriculasNuevas, out.1.matriculasActualizadas,
        out.1.registrosOmitidos))) = some (1, 0, 0) ∧
    [regC6a, regC6b].length + ([] : List RegistroImportado).length ≠ 1 + 0 + 0 :=
  ⟨by decide, by decide⟩

/-- The revision record of the C6 witness (an invalid cédula). -/
def regC6r : RegistroImportado :=
  ⟨4, "123".toList, "123".toList, "CARLA C".toList,
    "QUITO".toList, [], [], 0, .NO_REALIZO, [], false, false, true⟩

/-- The resolution state the C6 witness's dialog script produces: the
single revision row is omitted by the user. -/
def revC6 : EstadoRevision :=
  ⟨[], [], [regC6r],
    [.omitidoUsuario regC6r.nombreLimpio regC6r.cedulaOriginal]⟩

/-- The pipeline output of the C6 witness. -/
def outC6 : ResultadoProceso × ServicioBD :=
  (alTerminarAnalisis fallaC6 0 decC6w stC6 [regC6a] [regC6r] 1).getD ({}, stC6)

/-- The witness of C6 (amended): a batch of one valid row and one
revision row that the user omits satisfies the amended accounting
identity. -/
theorem informe_importacion_cuenta_total_witness :
    (stC6.cursos.lookup 1).isSome = true ∧
    [regC6a].length + [regC6r].length
      = outC6.1.matriculasNuevas + outC6.1.matriculasActualizadas
        + outC6.1.registrosOmitidos
        + List.countP esDuplicadoInterno outC6.1.errores
        + List.countP esFusionDescarte outC6.1.errores :=
  ⟨by decide,
    informe_importacion_cuenta_total fallaC6 0 decC6w stC6 [regC6a] [regC6r] 1
      revC6 outC6 (by decide) (by decide) (by decide) (by decide)⟩

end Gestion
